import Mathlib

/-!
Shallow embedding of the Steel6502 W65C02S emulator (src/cpu/w65c02s.rs,
src/bus/bus.rs, src/memory/memory.rs, src/main.rs) and proofs about it.

Machine integers are modelled as `Nat` with explicit `% 256` / `% 65536`
wherever the Rust code performs (wrapping) u8/u16 arithmetic; u8/u16-typed
fields carry their range invariant through explicit well-formedness
hypotheses.  The bus trait is modelled as a total byte map together with a
write log, so that the absence of writes is observable.
-/

namespace Steel6502

/-- Status flag selectors, from `enum Status` in w65c02s.rs. -/
inductive Status where
  | C
  | Z
  | I
  | D
  | B
  | V
  | N
  deriving DecidableEq

/-- Bit masks of the status flags, from `Status::mask`. -/
def Status.mask : Status → Nat
  | Status.C => 1
  | Status.Z => 2
  | Status.I => 4
  | Status.D => 8
  | Status.B => 16
  | Status.V => 64
  | Status.N => 128

/-- Processor state, from `struct W65C02S` (field order as in the source). -/
structure W65C02S where
  program_counter : Nat
  a_register : Nat
  y_register : Nat
  x_register : Nat
  stack_pointer : Nat
  processor_status_register : Nat
  deriving DecidableEq

/-- Range invariants carried by the Rust types `u16`/`u8`. -/
def W65C02S.Wf (cpu : W65C02S) : Prop :=
  cpu.program_counter < 65536 ∧ cpu.a_register < 256 ∧ cpu.y_register < 256 ∧
    cpu.x_register < 256 ∧ cpu.stack_pointer < 256 ∧
    cpu.processor_status_register < 256

/-- The bus (trait `Bus`): a byte map plus a log of all writes performed. -/
structure Bus where
  data : Nat → Nat
  log : List (Nat × Nat)

/-- Bus bytes are u8-valued. -/
def Bus.Wf (b : Bus) : Prop := ∀ a, b.data a < 256

def Bus.read (b : Bus) (address : Nat) : Nat := b.data address

def Bus.write (b : Bus) (address val : Nat) : Bus :=
  { data := fun a => if a = address then val else b.data a,
    log := (address, val) :: b.log }

/-- Operand kinds, from `enum Operand`.  `Relative` and the offset of
`ZpAddrRelative` store the raw operand byte; the i8 sign interpretation
happens at the `wrapping_add_signed` use site, as in the source. -/
inductive Operand where
  | Implied
  | Accumulator
  | Value (v : Nat)
  | Address (a : Nat)
  | Relative (off : Nat)
  | ZpAddrRelative (a off : Nat)
  deriving DecidableEq

/-- Errors, from `enum CpuError`. -/
inductive CpuError where
  | InvalidOpcode (b : Nat)
  | InvalidOperand (o : Operand)
  deriving DecidableEq

structure ResolvedOperand where
  operand : Operand
  page_crossed : Bool

/-- `Status::mask` complement-and-store, the body of `W65C02S::status_set`:
`(p & !mask) | (mask * val as u8)`. -/
def pset (p mask : Nat) (val : Bool) : Nat :=
  (p &&& (mask ^^^ 255)) ||| (mask * if val then 1 else 0)

def W65C02S.status_set (cpu : W65C02S) (flag : Status) (val : Bool) : W65C02S :=
  { cpu with
      processor_status_register := pset cpu.processor_status_register flag.mask val }

/-- `W65C02S::status_check`: `p & mask > 0`. -/
def W65C02S.status_check (cpu : W65C02S) (flag : Status) : Bool :=
  decide (0 < cpu.processor_status_register &&& flag.mask)

/-- `W65C02S::status_update_zn`. -/
def W65C02S.status_update_zn (cpu : W65C02S) (val : Nat) : W65C02S :=
  (cpu.status_set Status.Z (decide (val = 0))).status_set Status.N
    (decide (0 < val >>> 7))

/-- `W65C02S::set_p_default`: `P = 0x34`. -/
def W65C02S.set_p_default (cpu : W65C02S) : W65C02S :=
  { cpu with processor_status_register := 0x34 }

/-- `W65C02S::fetch_u8`: read at PC, post-increment PC with u16 wrap. -/
def fetch_u8 (cpu : W65C02S) (bus : Bus) : Nat × W65C02S :=
  (bus.read cpu.program_counter,
   { cpu with program_counter := (cpu.program_counter + 1) % 65536 })

/-- `W65C02S::fetch_u16`: two fetches, little-endian. -/
def fetch_u16 (cpu : W65C02S) (bus : Bus) : Nat × W65C02S :=
  let r1 := fetch_u8 cpu bus
  let r2 := fetch_u8 r1.2 bus
  ((r2.1 <<< 8) ||| r1.1, r2.2)

/-- `W65C02S::stack_push_u8`: write at `0x0100 | SP`, then `SP -= 1` wrapping. -/
def stack_push_u8 (cpu : W65C02S) (bus : Bus) (val : Nat) : W65C02S × Bus :=
  ({ cpu with stack_pointer := (cpu.stack_pointer + 255) % 256 },
   bus.write (0x0100 ||| cpu.stack_pointer) val)

/-- `W65C02S::stack_pull_u8`: `SP += 1` wrapping, then read at `0x0100 | SP`. -/
def stack_pull_u8 (cpu : W65C02S) (bus : Bus) : Nat × W65C02S :=
  let sp := (cpu.stack_pointer + 1) % 256
  (bus.read (0x0100 ||| sp), { cpu with stack_pointer := sp })

/-- Free function `read_u16`: little-endian 16-bit read at `addr`, `addr+1`. -/
def read_u16 (bus : Bus) (address : Nat) : Nat :=
  let low := bus.read address
  let high := bus.read ((address + 1) % 65536)
  (high <<< 8) ||| low

/-- `W65C02S::RESB_LOW` = 0xFFFC, `IRQB_LOW` = 0xFFFE. -/
def RESB_LOW : Nat := 0xFFFC

def IRQB_LOW : Nat := 0xFFFE

/-- `W65C02S::reset`: load PC from the reset vector, set `P = 0x34`. -/
def reset (cpu : W65C02S) (bus : Bus) : W65C02S :=
  let entry := read_u16 bus RESB_LOW
  { cpu.set_p_default with program_counter := entry }

/-- `Operand::read`. -/
def Operand.read (o : Operand) (cpu : W65C02S) (bus : Bus) :
    Except CpuError Nat :=
  match o with
  | Operand.Value v => Except.ok v
  | Operand.Address a => Except.ok (bus.read a)
  | Operand.Accumulator => Except.ok cpu.a_register
  | Operand.ZpAddrRelative a _ => Except.ok (bus.read a)
  | _ => Except.error (CpuError.InvalidOperand o)

/-- `Operand::write`. -/
def Operand.write (o : Operand) (cpu : W65C02S) (bus : Bus) (val : Nat) :
    Except CpuError (W65C02S × Bus) :=
  match o with
  | Operand.Address a => Except.ok (cpu, bus.write a val)
  | Operand.Accumulator => Except.ok ({ cpu with a_register := val }, bus)
  | _ => Except.error (CpuError.InvalidOperand o)

/-- Result of an op handler: `none` models a Rust panic
(`unreachable!`/`unimplemented!`); otherwise the `Result` together with the
final CPU and bus state. -/
abbrev OpReturn := Option (Except CpuError Unit × W65C02S × Bus)

abbrev OpFn := W65C02S → Bus → ResolvedOperand → OpReturn

/-- `u16::wrapping_add_signed(offset as i16)` for an i8 offset stored as a
raw byte: offsets `>= 128` stand for `off - 256`. -/
def pc_add_signed (pc off : Nat) : Nat :=
  if off < 128 then (pc + off) % 65536 else (pc + off + 65280) % 65536

/-- `op_adc`: binary-mode add with carry (no BCD). -/
def op_adc (cpu : W65C02S) (bus : Bus) (r : ResolvedOperand) : OpReturn :=
  match r.operand.read cpu bus with
  | Except.error e => some (Except.error e, cpu, bus)
  | Except.ok val =>
    let sum := cpu.a_register + val + (if cpu.status_check Status.C then 1 else 0)
    let result := sum % 256
    let cpu1 := cpu.status_set Status.C (decide (255 < sum))
    let overflow := decide ((((cpu.a_register ^^^ val) ^^^ 255) &&& (cpu.a_register ^^^ result)) &&& 128 ≠ 0)
    let cpu2 := cpu1.status_set Status.V overflow
    let cpu3 := cpu2.status_update_zn result
    some (Except.ok (), { cpu3 with a_register := result }, bus)

def op_and (cpu : W65C02S) (bus : Bus) (r : ResolvedOperand) : OpReturn :=
  match r.operand.read cpu bus with
  | Except.error e => some (Except.error e, cpu, bus)
  | Except.ok val =>
    let result := cpu.a_register &&& val
    let cpu1 := cpu.status_update_zn result
    some (Except.ok (), { cpu1 with a_register := result }, bus)

/-- `op_asl`: `val << 1` on u8 drops the top bit. -/
def op_asl (cpu : W65C02S) (bus : Bus) (r : ResolvedOperand) : OpReturn :=
  match r.operand.read cpu bus with
  | Except.error e => some (Except.error e, cpu, bus)
  | Except.ok val =>
    let result := (val <<< 1) % 256
    let cpu1 := cpu.status_set Status.C (decide (0 < val &&& 128))
    let cpu2 := cpu1.status_update_zn result
    match r.operand.write cpu2 bus result with
    | Except.error e => some (Except.error e, cpu2, bus)
    | Except.ok (cpu3, bus3) => some (Except.ok (), cpu3, bus3)

def op_bbrn (cpu : W65C02S) (bus : Bus) (r : ResolvedOperand) (n : Nat) : OpReturn :=
  match r.operand with
  | Operand.ZpAddrRelative addr off =>
    let val := bus.read addr
    if val &&& (1 <<< n) = 0 then
      some (Except.ok (), { cpu with program_counter := pc_add_signed cpu.program_counter off }, bus)
    else some (Except.ok (), cpu, bus)
  | _ => none

def op_bbsn (cpu : W65C02S) (bus : Bus) (r : ResolvedOperand) (n : Nat) : OpReturn :=
  match r.operand with
  | Operand.ZpAddrRelative addr off =>
    let val := bus.read addr
    if 0 < val &&& (1 <<< n) then
      some (Except.ok (), { cpu with program_counter := pc_add_signed cpu.program_counter off }, bus)
    else some (Except.ok (), cpu, bus)
  | _ => none

def op_bcc (cpu : W65C02S) (bus : Bus) (r : ResolvedOperand) : OpReturn :=
  match r.operand with
  | Operand.Relative off =>
    if !cpu.status_check Status.C then
      some (Except.ok (), { cpu with program_counter := pc_add_signed cpu.program_counter off }, bus)
    else some (Except.ok (), cpu, bus)
  | _ => none

def op_bcs (cpu : W65C02S) (bus : Bus) (r : ResolvedOperand) : OpReturn :=
  match r.operand with
  | Operand.Relative off =>
    if cpu.status_check Status.C then
      some (Except.ok (), { cpu with program_counter := pc_add_signed cpu.program_counter off }, bus)
    else some (Except.ok (), cpu, bus)
  | _ => none

def op_beq (cpu : W65C02S) (bus : Bus) (r : ResolvedOperand) : OpReturn :=
  match r.operand with
  | Operand.Relative off =>
    if cpu.status_check Status.Z then
      some (Except.ok (), { cpu with program_counter := pc_add_signed cpu.program_counter off }, bus)
    else some (Except.ok (), cpu, bus)
  | _ => none

/-- `op_bit`: Z from `A & M`; N/V only for non-immediate operands. -/
def op_bit (cpu : W65C02S) (bus : Bus) (r : ResolvedOperand) : OpReturn :=
  match r.operand.read cpu bus with
  | Except.error e => some (Except.error e, cpu, bus)
  | Except.ok val =>
    let cpu1 := cpu.status_set Status.Z (decide (cpu.a_register &&& val = 0))
    match r.operand with
    | Operand.Value _ => some (Except.ok (), cpu1, bus)
    | _ =>
      let cpu2 := cpu1.status_set Status.N (decide (0 < val >>> 7))
      let cpu3 := cpu2.status_set Status.V (decide (0 < val &&& 64))
      some (Except.ok (), cpu3, bus)

def op_bmi (cpu : W65C02S) (bus : Bus) (r : ResolvedOperand) : OpReturn :=
  match r.operand with
  | Operand.Relative off =>
    if cpu.status_check Status.N then
      some (Except.ok (), { cpu with program_counter := pc_add_signed cpu.program_counter off }, bus)
    else some (Except.ok (), cpu, bus)
  | _ => none

def op_bne (cpu : W65C02S) (bus : Bus) (r : ResolvedOperand) : OpReturn :=
  match r.operand with
  | Operand.Relative off =>
    if !cpu.status_check Status.Z then
      some (Except.ok (), { cpu with program_counter := pc_add_signed cpu.program_counter off }, bus)
    else some (Except.ok (), cpu, bus)
  | _ => none

def op_bpl (cpu : W65C02S) (bus : Bus) (r : ResolvedOperand) : OpReturn :=
  match r.operand with
  | Operand.Relative off =>
    if !cpu.status_check Status.N then
      some (Except.ok (), { cpu with program_counter := pc_add_signed cpu.program_counter off }, bus)
    else some (Except.ok (), cpu, bus)
  | _ => none

def op_bra (cpu : W65C02S) (bus : Bus) (r : ResolvedOperand) : OpReturn :=
  match r.operand with
  | Operand.Relative off =>
    some (Except.ok (), { cpu with program_counter := pc_add_signed cpu.program_counter off }, bus)
  | _ => none

/-- `op_brk`: push `(PC+1)` high/low and `P | 0x10`, set I, jump to the IRQ
vector. -/
def op_brk (cpu : W65C02S) (bus : Bus) (_r : ResolvedOperand) : OpReturn :=
  let return_addr := (cpu.program_counter + 1) % 65536
  let s1 := stack_push_u8 cpu bus (return_addr >>> 8)
  let s2 := stack_push_u8 s1.1 s1.2 (return_addr &&& 255)
  let s3 := stack_push_u8 s2.1 s2.2 (s2.1.processor_status_register ||| 16)
  let cpu4 := s3.1.status_set Status.I true
  let low := s3.2.read IRQB_LOW
  let high := s3.2.read (IRQB_LOW + 1)
  let target := (high <<< 8) ||| low
  some (Except.ok (), { cpu4 with program_counter := target }, s3.2)

def op_bvc (cpu : W65C02S) (bus : Bus) (r : ResolvedOperand) : OpReturn :=
  match r.operand with
  | Operand.Relative off =>
    if !cpu.status_check Status.V then
      some (Except.ok (), { cpu with program_counter := pc_add_signed cpu.program_counter off }, bus)
    else some (Except.ok (), cpu, bus)
  | _ => none

def op_bvs (cpu : W65C02S) (bus : Bus) (r : ResolvedOperand) : OpReturn :=
  match r.operand with
  | Operand.Relative off =>
    if cpu.status_check Status.V then
      some (Except.ok (), { cpu with program_counter := pc_add_signed cpu.program_counter off }, bus)
    else some (Except.ok (), cpu, bus)
  | _ => none

def op_clc (cpu : W65C02S) (bus : Bus) (_r : ResolvedOperand) : OpReturn :=
  some (Except.ok (), cpu.status_set Status.C false, bus)

def op_cld (cpu : W65C02S) (bus : Bus) (_r : ResolvedOperand) : OpReturn :=
  some (Except.ok (), cpu.status_set Status.D false, bus)

def op_cli (cpu : W65C02S) (bus : Bus) (_r : ResolvedOperand) : OpReturn :=
  some (Except.ok (), cpu.status_set Status.I false, bus)

def op_clv (cpu : W65C02S) (bus : Bus) (_r : ResolvedOperand) : OpReturn :=
  some (Except.ok (), cpu.status_set Status.V false, bus)

/-- `op_cmp`: `reg.wrapping_sub(val)` is `(reg + 256 - val) % 256` for byte
values. -/
def op_cmp (cpu : W65C02S) (bus : Bus) (r : ResolvedOperand) : OpReturn :=
  match r.operand.read cpu bus with
  | Except.error e => some (Except.error e, cpu, bus)
  | Except.ok val =>
    let result := (cpu.a_register + 256 - val) % 256
    let cpu1 := cpu.status_set Status.C (decide (val ≤ cpu.a_register))
    let cpu2 := cpu1.status_update_zn result
    some (Except.ok (), cpu2, bus)

def op_cpx (cpu : W65C02S) (bus : Bus) (r : ResolvedOperand) : OpReturn :=
  match r.operand.read cpu bus with
  | Except.error e => some (Except.error e, cpu, bus)
  | Except.ok val =>
    let result := (cpu.x_register + 256 - val) % 256
    let cpu1 := cpu.status_set Status.C (decide (val ≤ cpu.x_register))
    let cpu2 := cpu1.status_update_zn result
    some (Except.ok (), cpu2, bus)

def op_cpy (cpu : W65C02S) (bus : Bus) (r : ResolvedOperand) : OpReturn :=
  match r.operand.read cpu bus with
  | Except.error e => some (Except.error e, cpu, bus)
  | Except.ok val =>
    let result := (cpu.y_register + 256 - val) % 256
    let cpu1 := cpu.status_set Status.C (decide (val ≤ cpu.y_register))
    let cpu2 := cpu1.status_update_zn result
    some (Except.ok (), cpu2, bus)

def op_dec (cpu : W65C02S) (bus : Bus) (r : ResolvedOperand) : OpReturn :=
  match r.operand.read cpu bus with
  | Except.error e => some (Except.error e, cpu, bus)
  | Except.ok val =>
    let result := (val + 255) % 256
    let cpu1 := cpu.status_update_zn result
    match r.operand.write cpu1 bus result with
    | Except.error e => some (Except.error e, cpu1, bus)
    | Except.ok (cpu2, bus2) => some (Except.ok (), cpu2, bus2)

def op_dex (cpu : W65C02S) (bus : Bus) (_r : ResolvedOperand) : OpReturn :=
  let result := (cpu.x_register + 255) % 256
  let cpu1 := cpu.status_update_zn result
  some (Except.ok (), { cpu1 with x_register := result }, bus)

def op_dey (cpu : W65C02S) (bus : Bus) (_r : ResolvedOperand) : OpReturn :=
  let result := (cpu.y_register + 255) % 256
  let cpu1 := cpu.status_update_zn result
  some (Except.ok (), { cpu1 with y_register := result }, bus)

def op_eor (cpu : W65C02S) (bus : Bus) (r : ResolvedOperand) : OpReturn :=
  match r.operand.read cpu bus with
  | Except.error e => some (Except.error e, cpu, bus)
  | Except.ok val =>
    let result := cpu.a_register ^^^ val
    let cpu1 := cpu.status_update_zn result
    some (Except.ok (), { cpu1 with a_register := result }, bus)

def op_inc (cpu : W65C02S) (bus : Bus) (r : ResolvedOperand) : OpReturn :=
  match r.operand.read cpu bus with
  | Except.error e => some (Except.error e, cpu, bus)
  | Except.ok val =>
    let result := (val + 1) % 256
    let cpu1 := cpu.status_update_zn result
    match r.operand.write cpu1 bus result with
    | Except.error e => some (Except.error e, cpu1, bus)
    | Except.ok (cpu2, bus2) => some (Except.ok (), cpu2, bus2)

def op_inx (cpu : W65C02S) (bus : Bus) (_r : ResolvedOperand) : OpReturn :=
  let result := (cpu.x_register + 1) % 256
  let cpu1 := cpu.status_update_zn result
  some (Except.ok (), { cpu1 with x_register := result }, bus)

def op_iny (cpu : W65C02S) (bus : Bus) (_r : ResolvedOperand) : OpReturn :=
  let result := (cpu.y_register + 1) % 256
  let cpu1 := cpu.status_update_zn result
  some (Except.ok (), { cpu1 with y_register := result }, bus)

def op_jmp (cpu : W65C02S) (bus : Bus) (r : ResolvedOperand) : OpReturn :=
  match r.operand with
  | Operand.Address addr => some (Except.ok (), { cpu with program_counter := addr }, bus)
  | _ => none

/-- `op_jsr`: push `PC - 1` (high then low), jump to the target. -/
def op_jsr (cpu : W65C02S) (bus : Bus) (r : ResolvedOperand) : OpReturn :=
  match r.operand with
  | Operand.Address addr =>
    let return_addr := (cpu.program_counter + 65535) % 65536
    let return_low := return_addr &&& 255
    let return_high := return_addr >>> 8
    let s1 := stack_push_u8 cpu bus return_high
    let s2 := stack_push_u8 s1.1 s1.2 return_low
    some (Except.ok (), { s2.1 with program_counter := addr }, s2.2)
  | _ => none

def op_lda (cpu : W65C02S) (bus : Bus) (r : ResolvedOperand) : OpReturn :=
  match r.operand.read cpu bus with
  | Except.error e => some (Except.error e, cpu, bus)
  | Except.ok val =>
    let cpu1 := { cpu with a_register := val }
    some (Except.ok (), cpu1.status_update_zn cpu1.a_register, bus)

def op_ldx (cpu : W65C02S) (bus : Bus) (r : ResolvedOperand) : OpReturn :=
  match r.operand.read cpu bus with
  | Except.error e => some (Except.error e, cpu, bus)
  | Except.ok val =>
    let cpu1 := { cpu with x_register := val }
    some (Except.ok (), cpu1.status_update_zn cpu1.x_register, bus)

def op_ldy (cpu : W65C02S) (bus : Bus) (r : ResolvedOperand) : OpReturn :=
  match r.operand.read cpu bus with
  | Except.error e => some (Except.error e, cpu, bus)
  | Except.ok val =>
    let cpu1 := { cpu with y_register := val }
    some (Except.ok (), cpu1.status_update_zn cpu1.y_register, bus)

def op_lsr (cpu : W65C02S) (bus : Bus) (r : ResolvedOperand) : OpReturn :=
  match r.operand.read cpu bus with
  | Except.error e => some (Except.error e, cpu, bus)
  | Except.ok val =>
    let result := val >>> 1
    let cpu1 := cpu.status_set Status.C (decide (0 < val &&& 1))
    let cpu2 := cpu1.status_update_zn result
    match r.operand.write cpu2 bus result with
    | Except.error e => some (Except.error e, cpu2, bus)
    | Except.ok (cpu3, bus3) => some (Except.ok (), cpu3, bus3)

def op_nop (cpu : W65C02S) (bus : Bus) (_r : ResolvedOperand) : OpReturn :=
  some (Except.ok (), cpu, bus)

def op_ora (cpu : W65C02S) (bus : Bus) (r : ResolvedOperand) : OpReturn :=
  match r.operand.read cpu bus with
  | Except.error e => some (Except.error e, cpu, bus)
  | Except.ok val =>
    let result := cpu.a_register ||| val
    let cpu1 := cpu.status_update_zn result
    some (Except.ok (), { cpu1 with a_register := result }, bus)

def op_pha (cpu : W65C02S) (bus : Bus) (_r : ResolvedOperand) : OpReturn :=
  let s := stack_push_u8 cpu bus cpu.a_register
  some (Except.ok (), s.1, s.2)

def op_php (cpu : W65C02S) (bus : Bus) (_r : ResolvedOperand) : OpReturn :=
  let s := stack_push_u8 cpu bus (cpu.processor_status_register ||| 48)
  some (Except.ok (), s.1, s.2)

def op_phx (cpu : W65C02S) (bus : Bus) (_r : ResolvedOperand) : OpReturn :=
  let s := stack_push_u8 cpu bus cpu.x_register
  some (Except.ok (), s.1, s.2)

def op_phy (cpu : W65C02S) (bus : Bus) (_r : ResolvedOperand) : OpReturn :=
  let s := stack_push_u8 cpu bus cpu.y_register
  some (Except.ok (), s.1, s.2)

def op_pla (cpu : W65C02S) (bus : Bus) (_r : ResolvedOperand) : OpReturn :=
  let p := stack_pull_u8 cpu bus
  let cpu1 := { p.2 with a_register := p.1 }
  some (Except.ok (), cpu1.status_update_zn cpu1.a_register, bus)

/-- `op_plp`: `P = (pulled | 0x20) & !0x10`. -/
def op_plp (cpu : W65C02S) (bus : Bus) (_r : ResolvedOperand) : OpReturn :=
  let p := stack_pull_u8 cpu bus
  some (Except.ok (), { p.2 with processor_status_register := (p.1 ||| 32) &&& (16 ^^^ 255) }, bus)

def op_plx (cpu : W65C02S) (bus : Bus) (_r : ResolvedOperand) : OpReturn :=
  let p := stack_pull_u8 cpu bus
  let cpu1 := { p.2 with x_register := p.1 }
  some (Except.ok (), cpu1.status_update_zn cpu1.x_register, bus)

def op_ply (cpu : W65C02S) (bus : Bus) (_r : ResolvedOperand) : OpReturn :=
  let p := stack_pull_u8 cpu bus
  let cpu1 := { p.2 with y_register := p.1 }
  some (Except.ok (), cpu1.status_update_zn cpu1.y_register, bus)

def op_rmbn (cpu : W65C02S) (bus : Bus) (r : ResolvedOperand) (n : Nat) : OpReturn :=
  match r.operand.read cpu bus with
  | Except.error e => some (Except.error e, cpu, bus)
  | Except.ok val =>
    match r.operand.write cpu bus (val &&& ((1 <<< n) ^^^ 255)) with
    | Except.error e => some (Except.error e, cpu, bus)
    | Except.ok (cpu1, bus1) => some (Except.ok (), cpu1, bus1)

def op_rol (cpu : W65C02S) (bus : Bus) (r : ResolvedOperand) : OpReturn :=
  match r.operand.read cpu bus with
  | Except.error e => some (Except.error e, cpu, bus)
  | Except.ok val =>
    let c := decide (0 < val >>> 7)
    let result := ((val <<< 1) % 256) ||| (if cpu.status_check Status.C then 1 else 0)
    let cpu1 := cpu.status_set Status.C c
    let cpu2 := cpu1.status_update_zn result
    match r.operand.write cpu2 bus result with
    | Except.error e => some (Except.error e, cpu2, bus)
    | Except.ok (cpu3, bus3) => some (Except.ok (), cpu3, bus3)

def op_ror (cpu : W65C02S) (bus : Bus) (r : ResolvedOperand) : OpReturn :=
  match r.operand.read cpu bus with
  | Except.error e => some (Except.error e, cpu, bus)
  | Except.ok val =>
    let c := decide (0 < val &&& 1)
    let result := (val >>> 1) ||| ((if cpu.status_check Status.C then 1 else 0) <<< 7)
    let cpu1 := cpu.status_set Status.C c
    let cpu2 := cpu1.status_update_zn result
    match r.operand.write cpu2 bus result with
    | Except.error e => some (Except.error e, cpu2, bus)
    | Except.ok (cpu3, bus3) => some (Except.ok (), cpu3, bus3)

/-- `op_rti`: pull `P` (forced `| 0x20 & !0x10`), then PC low, high. -/
def op_rti (cpu : W65C02S) (bus : Bus) (_r : ResolvedOperand) : OpReturn :=
  let p0 := stack_pull_u8 cpu bus
  let p := (p0.1 ||| 32) &&& (16 ^^^ 255)
  let p1 := stack_pull_u8 p0.2 bus
  let p2 := stack_pull_u8 p1.2 bus
  let addr := (p2.1 <<< 8) ||| p1.1
  some (Except.ok (),
    { p2.2 with processor_status_register := p, program_counter := addr }, bus)

/-- `op_rts`: pull low, high; `PC = (hi << 8 | lo) + 1` wrapping. -/
def op_rts (cpu : W65C02S) (bus : Bus) (_r : ResolvedOperand) : OpReturn :=
  let p1 := stack_pull_u8 cpu bus
  let p2 := stack_pull_u8 p1.2 bus
  let addr := (p2.1 <<< 8) ||| p1.1
  some (Except.ok (), { p2.2 with program_counter := (addr + 1) % 65536 }, bus)

/-- `op_sbc`: `A + !M + C` with u16 wrapping adds. -/
def op_sbc (cpu : W65C02S) (bus : Bus) (r : ResolvedOperand) : OpReturn :=
  match r.operand.read cpu bus with
  | Except.error e => some (Except.error e, cpu, bus)
  | Except.ok val =>
    let diff := ((cpu.a_register + (val ^^^ 255)) % 65536 + (if cpu.status_check Status.C then 1 else 0)) % 65536
    let result := diff % 256
    let cpu1 := cpu.status_set Status.C (decide (255 < diff))
    let cpu2 := cpu1.status_set Status.V (decide (((result ^^^ cpu.a_register) &&& (cpu.a_register ^^^ val)) &&& 128 ≠ 0))
    let cpu3 := cpu2.status_update_zn result
    some (Except.ok (), { cpu3 with a_register := result }, bus)

def op_sec (cpu : W65C02S) (bus : Bus) (_r : ResolvedOperand) : OpReturn :=
  some (Except.ok (), cpu.status_set Status.C true, bus)

def op_sed (cpu : W65C02S) (bus : Bus) (_r : ResolvedOperand) : OpReturn :=
  some (Except.ok (), cpu.status_set Status.D true, bus)

def op_sei (cpu : W65C02S) (bus : Bus) (_r : ResolvedOperand) : OpReturn :=
  some (Except.ok (), cpu.status_set Status.I true, bus)

def op_smbn (cpu : W65C02S) (bus : Bus) (r : ResolvedOperand) (n : Nat) : OpReturn :=
  match r.operand.read cpu bus with
  | Except.error e => some (Except.error e, cpu, bus)
  | Except.ok val =>
    match r.operand.write cpu bus (val ||| (1 <<< n)) with
    | Except.error e => some (Except.error e, cpu, bus)
    | Except.ok (cpu1, bus1) => some (Except.ok (), cpu1, bus1)

def op_sta (cpu : W65C02S) (bus : Bus) (r : ResolvedOperand) : OpReturn :=
  match r.operand.write cpu bus cpu.a_register with
  | Except.error e => some (Except.error e, cpu, bus)
  | Except.ok (cpu1, bus1) => some (Except.ok (), cpu1, bus1)

/-- `op_stp` is `unimplemented!()` in the source: a panic. -/
def op_stp (_cpu : W65C02S) (_bus : Bus) (_r : ResolvedOperand) : OpReturn :=
  none

def op_stx (cpu : W65C02S) (bus : Bus) (r : ResolvedOperand) : OpReturn :=
  match r.operand.write cpu bus cpu.x_register with
  | Except.error e => some (Except.error e, cpu, bus)
  | Except.ok (cpu1, bus1) => some (Except.ok (), cpu1, bus1)

def op_sty (cpu : W65C02S) (bus : Bus) (r : ResolvedOperand) : OpReturn :=
  match r.operand.write cpu bus cpu.y_register with
  | Except.error e => some (Except.error e, cpu, bus)
  | Except.ok (cpu1, bus1) => some (Except.ok (), cpu1, bus1)

def op_stz (cpu : W65C02S) (bus : Bus) (r : ResolvedOperand) : OpReturn :=
  match r.operand.write cpu bus 0 with
  | Except.error e => some (Except.error e, cpu, bus)
  | Except.ok (cpu1, bus1) => some (Except.ok (), cpu1, bus1)

def op_tax (cpu : W65C02S) (bus : Bus) (_r : ResolvedOperand) : OpReturn :=
  let cpu1 := { cpu with x_register := cpu.a_register }
  some (Except.ok (), cpu1.status_update_zn cpu1.x_register, bus)

def op_tay (cpu : W65C02S) (bus : Bus) (_r : ResolvedOperand) : OpReturn :=
  let cpu1 := { cpu with y_register := cpu.a_register }
  some (Except.ok (), cpu1.status_update_zn cpu1.y_register, bus)

def op_trb (cpu : W65C02S) (bus : Bus) (r : ResolvedOperand) : OpReturn :=
  match r.operand.read cpu bus with
  | Except.error e => some (Except.error e, cpu, bus)
  | Except.ok val =>
    let result := val &&& (cpu.a_register ^^^ 255)
    let cpu1 := cpu.status_set Status.Z (decide (val &&& cpu.a_register = 0))
    match r.operand.write cpu1 bus result with
    | Except.error e => some (Except.error e, cpu1, bus)
    | Except.ok (cpu2, bus2) => some (Except.ok (), cpu2, bus2)

def op_tsb (cpu : W65C02S) (bus : Bus) (r : ResolvedOperand) : OpReturn :=
  match r.operand.read cpu bus with
  | Except.error e => some (Except.error e, cpu, bus)
  | Except.ok val =>
    let result := val ||| cpu.a_register
    let cpu1 := cpu.status_set Status.Z (decide (val &&& cpu.a_register = 0))
    match r.operand.write cpu1 bus result with
    | Except.error e => some (Except.error e, cpu1, bus)
    | Except.ok (cpu2, bus2) => some (Except.ok (), cpu2, bus2)

def op_tsx (cpu : W65C02S) (bus : Bus) (_r : ResolvedOperand) : OpReturn :=
  let cpu1 := { cpu with x_register := cpu.stack_pointer }
  some (Except.ok (), cpu1.status_update_zn cpu1.x_register, bus)

def op_txa (cpu : W65C02S) (bus : Bus) (_r : ResolvedOperand) : OpReturn :=
  let cpu1 := { cpu with a_register := cpu.x_register }
  some (Except.ok (), cpu1.status_update_zn cpu1.a_register, bus)

def op_txs (cpu : W65C02S) (bus : Bus) (_r : ResolvedOperand) : OpReturn :=
  some (Except.ok (), { cpu with stack_pointer := cpu.x_register }, bus)

def op_tya (cpu : W65C02S) (bus : Bus) (_r : ResolvedOperand) : OpReturn :=
  let cpu1 := { cpu with a_register := cpu.y_register }
  some (Except.ok (), cpu1.status_update_zn cpu1.a_register, bus)

/-- `op_wai` is `unimplemented!()` in the source: a panic. -/
def op_wai (_cpu : W65C02S) (_bus : Bus) (_r : ResolvedOperand) : OpReturn :=
  none

def op_alias_bbr0 (cpu : W65C02S) (bus : Bus) (r : ResolvedOperand) : OpReturn := op_bbrn cpu bus r 0

def op_alias_bbr1 (cpu : W65C02S) (bus : Bus) (r : ResolvedOperand) : OpReturn := op_bbrn cpu bus r 1

def op_alias_bbr2 (cpu : W65C02S) (bus : Bus) (r : ResolvedOperand) : OpReturn := op_bbrn cpu bus r 2

def op_alias_bbr3 (cpu : W65C02S) (bus : Bus) (r : ResolvedOperand) : OpReturn := op_bbrn cpu bus r 3

def op_alias_bbr4 (cpu : W65C02S) (bus : Bus) (r : ResolvedOperand) : OpReturn := op_bbrn cpu bus r 4

def op_alias_bbr5 (cpu : W65C02S) (bus : Bus) (r : ResolvedOperand) : OpReturn := op_bbrn cpu bus r 5

def op_alias_bbr6 (cpu : W65C02S) (bus : Bus) (r : ResolvedOperand) : OpReturn := op_bbrn cpu bus r 6

def op_alias_bbr7 (cpu : W65C02S) (bus : Bus) (r : ResolvedOperand) : OpReturn := op_bbrn cpu bus r 7

def op_alias_bbs0 (cpu : W65C02S) (bus : Bus) (r : ResolvedOperand) : OpReturn := op_bbsn cpu bus r 0

def op_alias_bbs1 (cpu : W65C02S) (bus : Bus) (r : ResolvedOperand) : OpReturn := op_bbsn cpu bus r 1

def op_alias_bbs2 (cpu : W65C02S) (bus : Bus) (r : ResolvedOperand) : OpReturn := op_bbsn cpu bus r 2

def op_alias_bbs3 (cpu : W65C02S) (bus : Bus) (r : ResolvedOperand) : OpReturn := op_bbsn cpu bus r 3

def op_alias_bbs4 (cpu : W65C02S) (bus : Bus) (r : ResolvedOperand) : OpReturn := op_bbsn cpu bus r 4

def op_alias_bbs5 (cpu : W65C02S) (bus : Bus) (r : ResolvedOperand) : OpReturn := op_bbsn cpu bus r 5

def op_alias_bbs6 (cpu : W65C02S) (bus : Bus) (r : ResolvedOperand) : OpReturn := op_bbsn cpu bus r 6

def op_alias_bbs7 (cpu : W65C02S) (bus : Bus) (r : ResolvedOperand) : OpReturn := op_bbsn cpu bus r 7

def op_alias_rmb0 (cpu : W65C02S) (bus : Bus) (r : ResolvedOperand) : OpReturn := op_rmbn cpu bus r 0

def op_alias_rmb1 (cpu : W65C02S) (bus : Bus) (r : ResolvedOperand) : OpReturn := op_rmbn cpu bus r 1

def op_alias_rmb2 (cpu : W65C02S) (bus : Bus) (r : ResolvedOperand) : OpReturn := op_rmbn cpu bus r 2

def op_alias_rmb3 (cpu : W65C02S) (bus : Bus) (r : ResolvedOperand) : OpReturn := op_rmbn cpu bus r 3

def op_alias_rmb4 (cpu : W65C02S) (bus : Bus) (r : ResolvedOperand) : OpReturn := op_rmbn cpu bus r 4

def op_alias_rmb5 (cpu : W65C02S) (bus : Bus) (r : ResolvedOperand) : OpReturn := op_rmbn cpu bus r 5

def op_alias_rmb6 (cpu : W65C02S) (bus : Bus) (r : ResolvedOperand) : OpReturn := op_rmbn cpu bus r 6

def op_alias_rmb7 (cpu : W65C02S) (bus : Bus) (r : ResolvedOperand) : OpReturn := op_rmbn cpu bus r 7

def op_alias_smb0 (cpu : W65C02S) (bus : Bus) (r : ResolvedOperand) : OpReturn := op_smbn cpu bus r 0

def op_alias_smb1 (cpu : W65C02S) (bus : Bus) (r : ResolvedOperand) : OpReturn := op_smbn cpu bus r 1

def op_alias_smb2 (cpu : W65C02S) (bus : Bus) (r : ResolvedOperand) : OpReturn := op_smbn cpu bus r 2

def op_alias_smb3 (cpu : W65C02S) (bus : Bus) (r : ResolvedOperand) : OpReturn := op_smbn cpu bus r 3

def op_alias_smb4 (cpu : W65C02S) (bus : Bus) (r : ResolvedOperand) : OpReturn := op_smbn cpu bus r 4

def op_alias_smb5 (cpu : W65C02S) (bus : Bus) (r : ResolvedOperand) : OpReturn := op_smbn cpu bus r 5

def op_alias_smb6 (cpu : W65C02S) (bus : Bus) (r : ResolvedOperand) : OpReturn := op_smbn cpu bus r 6

def op_alias_smb7 (cpu : W65C02S) (bus : Bus) (r : ResolvedOperand) : OpReturn := op_smbn cpu bus r 7

/-- The sixteen addressing modes plus `ZeroPageRelative`, from
`enum AddressingMode`. -/
inductive AddressingMode where
  | Absolute
  | AbsoluteIndexedIndirect
  | AbsoluteIndexedX
  | AbsoluteIndexedY
  | AbsoluteIndirect
  | Accumulator
  | Immediate
  | Implied
  | ProgramCounterRelative
  | Stack
  | ZeroPage
  | ZeroPageIndexedIndirect
  | ZeroPageIndexedX
  | ZeroPageIndexedY
  | ZeroPageIndirect
  | ZeroPageIndirectIndexedY
  | ZeroPageRelative
  deriving DecidableEq

/-- `enum Mnemomic` (source spelling kept). -/
inductive Mnemomic where
  | ADC
  | AND
  | ASL
  | BBRN (n : Nat)
  | BBSN (n : Nat)
  | BCC
  | BCS
  | BEQ
  | BIT
  | BMI
  | BNE
  | BPL
  | BRA
  | BRK
  | BVC
  | BVS
  | CLC
  | CLD
  | CLI
  | CLV
  | CMP
  | CPX
  | CPY
  | DEC
  | DEX
  | DEY
  | EOR
  | INC
  | INX
  | INY
  | JMP
  | JSR
  | LDA
  | LDX
  | LDY
  | LSR
  | NOP
  | ORA
  | PHA
  | PHP
  | PHX
  | PHY
  | PLA
  | PLP
  | PLX
  | PLY
  | RMBN (n : Nat)
  | ROL
  | ROR
  | RTI
  | RTS
  | SBC
  | SEC
  | SED
  | SEI
  | SMBN (n : Nat)
  | STA
  | STP
  | STX
  | STY
  | STZ
  | TAX
  | TAY
  | TRB
  | TSB
  | TSX
  | TXA
  | TXS
  | TYA
  | WAI

/-- `struct Operation`. -/
structure Operation where
  addressing_mode : AddressingMode
  mnemomic : Mnemomic
  exec : OpFn

/-- `crosses_pages`: `(a & 0xff00) != (b & 0xff00)`. -/
def crosses_pages (a b : Nat) : Bool :=
  decide (a &&& 0xff00 ≠ b &&& 0xff00)

/-- `resolve_operand`: fetch and decode the operand for an addressing mode.
Reads never mutate the bus, so only the advanced CPU is returned. -/
def resolve_operand (cpu : W65C02S) (bus : Bus) (mode : AddressingMode) :
    ResolvedOperand × W65C02S :=
  match mode with
  | AddressingMode.Absolute =>
    let f := fetch_u16 cpu bus
    (⟨Operand.Address f.1, false⟩, f.2)
  | AddressingMode.AbsoluteIndexedIndirect =>
    let f := fetch_u16 cpu bus
    let addr := (f.1 + cpu.x_register) % 65536
    (⟨Operand.Address (read_u16 bus addr), false⟩, f.2)
  | AddressingMode.AbsoluteIndexedX =>
    let f := fetch_u16 cpu bus
    let addr := (f.1 + cpu.x_register) % 65536
    (⟨Operand.Address addr, crosses_pages f.1 addr⟩, f.2)
  | AddressingMode.AbsoluteIndexedY =>
    let f := fetch_u16 cpu bus
    let addr := (f.1 + cpu.y_register) % 65536
    (⟨Operand.Address addr, crosses_pages f.1 addr⟩, f.2)
  | AddressingMode.AbsoluteIndirect =>
    let f := fetch_u16 cpu bus
    (⟨Operand.Address (read_u16 bus f.1), false⟩, f.2)
  | AddressingMode.Accumulator => (⟨Operand.Accumulator, false⟩, cpu)
  | AddressingMode.Immediate =>
    let f := fetch_u8 cpu bus
    (⟨Operand.Value f.1, false⟩, f.2)
  | AddressingMode.Implied => (⟨Operand.Implied, false⟩, cpu)
  | AddressingMode.ProgramCounterRelative =>
    let f := fetch_u8 cpu bus
    (⟨Operand.Relative f.1, false⟩, f.2)
  | AddressingMode.Stack => (⟨Operand.Implied, false⟩, cpu)
  | AddressingMode.ZeroPage =>
    let f := fetch_u8 cpu bus
    (⟨Operand.Address f.1, false⟩, f.2)
  | AddressingMode.ZeroPageIndexedIndirect =>
    let f := fetch_u8 cpu bus
    let zp_addr := (f.1 + cpu.x_register) % 256
    let low := bus.read zp_addr
    let high := bus.read ((zp_addr + 1) % 256)
    (⟨Operand.Address ((high <<< 8) ||| low), false⟩, f.2)
  | AddressingMode.ZeroPageIndexedX =>
    let f := fetch_u8 cpu bus
    (⟨Operand.Address ((f.1 + cpu.x_register) % 256), false⟩, f.2)
  | AddressingMode.ZeroPageIndexedY =>
    let f := fetch_u8 cpu bus
    (⟨Operand.Address ((f.1 + cpu.y_register) % 256), false⟩, f.2)
  | AddressingMode.ZeroPageIndirect =>
    let f := fetch_u8 cpu bus
    let low := bus.read f.1
    let high := bus.read ((f.1 + 1) % 256)
    (⟨Operand.Address ((high <<< 8) ||| low), false⟩, f.2)
  | AddressingMode.ZeroPageIndirectIndexedY =>
    let f := fetch_u8 cpu bus
    let low := bus.read f.1
    let high := bus.read ((f.1 + 1) % 256)
    let base := (high <<< 8) ||| low
    let target := (base + cpu.y_register) % 65536
    (⟨Operand.Address target, crosses_pages base target⟩, f.2)
  | AddressingMode.ZeroPageRelative =>
    let f1 := fetch_u8 cpu bus
    let f2 := fetch_u8 f1.2 bus
    (⟨Operand.ZpAddrRelative f1.1 f2.1, false⟩, f2.2)

/-! `W65C02S::OPERATIONS`: the 256-entry dispatch table, written in 16
chunks of 16 opcodes each (appended below) to keep elaboration tractable. -/

/-- Opcodes 0x00 - 0x0F of the dispatch table. -/
def OPERATIONS_0 : List (Option Operation) := [
  some ⟨AddressingMode.Stack, Mnemomic.BRK, op_brk⟩,                          -- 0x00
  some ⟨AddressingMode.ZeroPageIndexedIndirect, Mnemomic.ORA, op_ora⟩,        -- 0x01
  none,                                                                       -- 0x02
  none,                                                                       -- 0x03
  some ⟨AddressingMode.ZeroPage, Mnemomic.TSB, op_tsb⟩,                       -- 0x04
  some ⟨AddressingMode.ZeroPage, Mnemomic.ORA, op_ora⟩,                       -- 0x05
  some ⟨AddressingMode.ZeroPage, Mnemomic.ASL, op_asl⟩,                       -- 0x06
  some ⟨AddressingMode.ZeroPage, Mnemomic.RMBN 0, op_alias_rmb0⟩,             -- 0x07
  some ⟨AddressingMode.Stack, Mnemomic.PHP, op_php⟩,                          -- 0x08
  some ⟨AddressingMode.Immediate, Mnemomic.ORA, op_ora⟩,                      -- 0x09
  some ⟨AddressingMode.Accumulator, Mnemomic.ASL, op_asl⟩,                    -- 0x0A
  none,                                                                       -- 0x0B
  some ⟨AddressingMode.Absolute, Mnemomic.TSB, op_tsb⟩,                       -- 0x0C
  some ⟨AddressingMode.Absolute, Mnemomic.ORA, op_ora⟩,                       -- 0x0D
  some ⟨AddressingMode.Absolute, Mnemomic.ASL, op_asl⟩,                       -- 0x0E
  some ⟨AddressingMode.ZeroPageRelative, Mnemomic.BBRN 0, op_alias_bbr0⟩]     -- 0x0F

/-- Opcodes 0x10 - 0x1F of the dispatch table. -/
def OPERATIONS_1 : List (Option Operation) := [
  some ⟨AddressingMode.ProgramCounterRelative, Mnemomic.BPL, op_bpl⟩,         -- 0x10
  some ⟨AddressingMode.ZeroPageIndirectIndexedY, Mnemomic.ORA, op_ora⟩,       -- 0x11
  some ⟨AddressingMode.ZeroPageIndirect, Mnemomic.ORA, op_ora⟩,               -- 0x12
  none,                                                                       -- 0x13
  some ⟨AddressingMode.ZeroPage, Mnemomic.TRB, op_trb⟩,                       -- 0x14
  some ⟨AddressingMode.ZeroPageIndexedX, Mnemomic.ORA, op_ora⟩,               -- 0x15
  some ⟨AddressingMode.ZeroPageIndexedX, Mnemomic.ASL, op_asl⟩,               -- 0x16
  some ⟨AddressingMode.ZeroPage, Mnemomic.RMBN 1, op_alias_rmb1⟩,             -- 0x17
  some ⟨AddressingMode.Implied, Mnemomic.CLC, op_clc⟩,                        -- 0x18
  some ⟨AddressingMode.AbsoluteIndexedY, Mnemomic.ORA, op_ora⟩,               -- 0x19
  some ⟨AddressingMode.Accumulator, Mnemomic.INC, op_inc⟩,                    -- 0x1A
  none,                                                                       -- 0x1B
  some ⟨AddressingMode.Absolute, Mnemomic.TRB, op_trb⟩,                       -- 0x1C
  some ⟨AddressingMode.AbsoluteIndexedX, Mnemomic.ORA, op_ora⟩,               -- 0x1D
  some ⟨AddressingMode.AbsoluteIndexedX, Mnemomic.ASL, op_asl⟩,               -- 0x1E
  some ⟨AddressingMode.ZeroPageRelative, Mnemomic.BBRN 1, op_alias_bbr1⟩]     -- 0x1F

/-- Opcodes 0x20 - 0x2F of the dispatch table. -/
def OPERATIONS_2 : List (Option Operation) := [
  some ⟨AddressingMode.Absolute, Mnemomic.JSR, op_jsr⟩,                       -- 0x20
  some ⟨AddressingMode.ZeroPageIndexedIndirect, Mnemomic.AND, op_and⟩,        -- 0x21
  none,                                                                       -- 0x22
  none,                                                                       -- 0x23
  some ⟨AddressingMode.ZeroPage, Mnemomic.BIT, op_bit⟩,                       -- 0x24
  some ⟨AddressingMode.ZeroPage, Mnemomic.AND, op_and⟩,                       -- 0x25
  some ⟨AddressingMode.ZeroPage, Mnemomic.ROL, op_rol⟩,                       -- 0x26
  some ⟨AddressingMode.ZeroPage, Mnemomic.RMBN 2, op_alias_rmb2⟩,             -- 0x27
  some ⟨AddressingMode.Stack, Mnemomic.PLP, op_plp⟩,                          -- 0x28
  some ⟨AddressingMode.Immediate, Mnemomic.AND, op_and⟩,                      -- 0x29
  some ⟨AddressingMode.Accumulator, Mnemomic.ROL, op_rol⟩,                    -- 0x2A
  none,                                                                       -- 0x2B
  some ⟨AddressingMode.Absolute, Mnemomic.BIT, op_bit⟩,                       -- 0x2C
  some ⟨AddressingMode.Absolute, Mnemomic.AND, op_and⟩,                       -- 0x2D
  some ⟨AddressingMode.Absolute, Mnemomic.ROL, op_rol⟩,                       -- 0x2E
  some ⟨AddressingMode.ZeroPageRelative, Mnemomic.BBRN 2, op_alias_bbr2⟩]     -- 0x2F

/-- Opcodes 0x30 - 0x3F of the dispatch table. -/
def OPERATIONS_3 : List (Option Operation) := [
  some ⟨AddressingMode.ProgramCounterRelative, Mnemomic.BMI, op_bmi⟩,         -- 0x30
  some ⟨AddressingMode.ZeroPageIndirectIndexedY, Mnemomic.AND, op_and⟩,       -- 0x31
  some ⟨AddressingMode.ZeroPageIndirect, Mnemomic.AND, op_and⟩,               -- 0x32
  none,                                                                       -- 0x33
  some ⟨AddressingMode.ZeroPageIndexedX, Mnemomic.BIT, op_bit⟩,               -- 0x34
  some ⟨AddressingMode.ZeroPageIndexedX, Mnemomic.AND, op_and⟩,               -- 0x35
  some ⟨AddressingMode.ZeroPageIndexedX, Mnemomic.ROL, op_rol⟩,               -- 0x36
  some ⟨AddressingMode.ZeroPage, Mnemomic.RMBN 3, op_alias_rmb3⟩,             -- 0x37
  some ⟨AddressingMode.Implied, Mnemomic.SEC, op_sec⟩,                        -- 0x38
  some ⟨AddressingMode.AbsoluteIndexedY, Mnemomic.AND, op_and⟩,               -- 0x39
  some ⟨AddressingMode.Accumulator, Mnemomic.DEC, op_dec⟩,                    -- 0x3A
  none,                                                                       -- 0x3B
  some ⟨AddressingMode.AbsoluteIndexedX, Mnemomic.BIT, op_bit⟩,               -- 0x3C
  some ⟨AddressingMode.AbsoluteIndexedX, Mnemomic.AND, op_and⟩,               -- 0x3D
  some ⟨AddressingMode.AbsoluteIndexedX, Mnemomic.ROL, op_rol⟩,               -- 0x3E
  some ⟨AddressingMode.ZeroPageRelative, Mnemomic.BBRN 3, op_alias_bbr3⟩]     -- 0x3F

/-- Opcodes 0x40 - 0x4F of the dispatch table. -/
def OPERATIONS_4 : List (Option Operation) := [
  some ⟨AddressingMode.Stack, Mnemomic.RTI, op_rti⟩,                          -- 0x40
  some ⟨AddressingMode.ZeroPageIndexedIndirect, Mnemomic.EOR, op_eor⟩,        -- 0x41
  none,                                                                       -- 0x42
  none,                                                                       -- 0x43
  none,                                                                       -- 0x44
  some ⟨AddressingMode.ZeroPage, Mnemomic.EOR, op_eor⟩,                       -- 0x45
  some ⟨AddressingMode.ZeroPage, Mnemomic.LSR, op_lsr⟩,                       -- 0x46
  some ⟨AddressingMode.ZeroPage, Mnemomic.RMBN 4, op_alias_rmb4⟩,             -- 0x47
  some ⟨AddressingMode.Stack, Mnemomic.PHA, op_pha⟩,                          -- 0x48
  some ⟨AddressingMode.Immediate, Mnemomic.EOR, op_eor⟩,                      -- 0x49
  some ⟨AddressingMode.Accumulator, Mnemomic.LSR, op_lsr⟩,                    -- 0x4A
  none,                                                                       -- 0x4B
  some ⟨AddressingMode.Absolute, Mnemomic.JMP, op_jmp⟩,                       -- 0x4C
  some ⟨AddressingMode.Absolute, Mnemomic.EOR, op_eor⟩,                       -- 0x4D
  some ⟨AddressingMode.Absolute, Mnemomic.LSR, op_lsr⟩,                       -- 0x4E
  some ⟨AddressingMode.ZeroPageRelative, Mnemomic.BBRN 4, op_alias_bbr4⟩]     -- 0x4F

/-- Opcodes 0x50 - 0x5F of the dispatch table. -/
def OPERATIONS_5 : List (Option Operation) := [
  some ⟨AddressingMode.ProgramCounterRelative, Mnemomic.BVC, op_bvc⟩,         -- 0x50
  some ⟨AddressingMode.ZeroPageIndirectIndexedY, Mnemomic.EOR, op_eor⟩,       -- 0x51
  some ⟨AddressingMode.ZeroPageIndirect, Mnemomic.EOR, op_eor⟩,               -- 0x52
  none,                                                                       -- 0x53
  none,                                                                       -- 0x54
  some ⟨AddressingMode.ZeroPageIndexedX, Mnemomic.EOR, op_eor⟩,               -- 0x55
  some ⟨AddressingMode.ZeroPageIndexedX, Mnemomic.LSR, op_lsr⟩,               -- 0x56
  some ⟨AddressingMode.ZeroPage, Mnemomic.RMBN 5, op_alias_rmb5⟩,             -- 0x57
  some ⟨AddressingMode.Implied, Mnemomic.CLI, op_cli⟩,                        -- 0x58
  some ⟨AddressingMode.AbsoluteIndexedY, Mnemomic.EOR, op_eor⟩,               -- 0x59
  some ⟨AddressingMode.Stack, Mnemomic.PHY, op_phy⟩,                          -- 0x5A
  none,                                                                       -- 0x5B
  none,                                                                       -- 0x5C
  some ⟨AddressingMode.AbsoluteIndexedX, Mnemomic.EOR, op_eor⟩,               -- 0x5D
  some ⟨AddressingMode.AbsoluteIndexedX, Mnemomic.LSR, op_lsr⟩,               -- 0x5E
  some ⟨AddressingMode.ZeroPageRelative, Mnemomic.BBRN 5, op_alias_bbr5⟩]     -- 0x5F

/-- Opcodes 0x60 - 0x6F of the dispatch table. -/
def OPERATIONS_6 : List (Option Operation) := [
  some ⟨AddressingMode.Stack, Mnemomic.RTS, op_rts⟩,                          -- 0x60
  some ⟨AddressingMode.ZeroPageIndexedIndirect, Mnemomic.ADC, op_adc⟩,        -- 0x61
  none,                                                                       -- 0x62
  none,                                                                       -- 0x63
  some ⟨AddressingMode.ZeroPage, Mnemomic.STZ, op_stz⟩,                       -- 0x64
  some ⟨AddressingMode.ZeroPage, Mnemomic.ADC, op_adc⟩,                       -- 0x65
  some ⟨AddressingMode.ZeroPage, Mnemomic.ROR, op_ror⟩,                       -- 0x66
  some ⟨AddressingMode.ZeroPage, Mnemomic.RMBN 6, op_alias_rmb6⟩,             -- 0x67
  some ⟨AddressingMode.Stack, Mnemomic.PLA, op_pla⟩,                          -- 0x68
  some ⟨AddressingMode.Immediate, Mnemomic.ADC, op_adc⟩,                      -- 0x69
  some ⟨AddressingMode.Accumulator, Mnemomic.ROR, op_ror⟩,                    -- 0x6A
  none,                                                                       -- 0x6B
  some ⟨AddressingMode.AbsoluteIndirect, Mnemomic.JMP, op_jmp⟩,               -- 0x6C
  some ⟨AddressingMode.Absolute, Mnemomic.ADC, op_adc⟩,                       -- 0x6D
  some ⟨AddressingMode.Absolute, Mnemomic.ROR, op_ror⟩,                       -- 0x6E
  some ⟨AddressingMode.ZeroPageRelative, Mnemomic.BBRN 6, op_alias_bbr6⟩]     -- 0x6F

/-- Opcodes 0x70 - 0x7F of the dispatch table. -/
def OPERATIONS_7 : List (Option Operation) := [
  some ⟨AddressingMode.ProgramCounterRelative, Mnemomic.BVS, op_bvs⟩,         -- 0x70
  some ⟨AddressingMode.ZeroPageIndirectIndexedY, Mnemomic.ADC, op_adc⟩,       -- 0x71
  some ⟨AddressingMode.ZeroPageIndirect, Mnemomic.ADC, op_adc⟩,               -- 0x72
  none,                                                                       -- 0x73
  some ⟨AddressingMode.ZeroPageIndexedX, Mnemomic.STZ, op_stz⟩,               -- 0x74
  some ⟨AddressingMode.ZeroPageIndexedX, Mnemomic.ADC, op_adc⟩,               -- 0x75
  some ⟨AddressingMode.ZeroPageIndexedX, Mnemomic.ROR, op_ror⟩,               -- 0x76
  some ⟨AddressingMode.ZeroPage, Mnemomic.RMBN 7, op_alias_rmb7⟩,             -- 0x77
  some ⟨AddressingMode.Implied, Mnemomic.SEI, op_sei⟩,                        -- 0x78
  some ⟨AddressingMode.AbsoluteIndexedY, Mnemomic.ADC, op_adc⟩,               -- 0x79
  some ⟨AddressingMode.Stack, Mnemomic.PLY, op_ply⟩,                          -- 0x7A
  none,                                                                       -- 0x7B
  some ⟨AddressingMode.AbsoluteIndexedIndirect, Mnemomic.JMP, op_jmp⟩,        -- 0x7C
  some ⟨AddressingMode.AbsoluteIndexedX, Mnemomic.ADC, op_adc⟩,               -- 0x7D
  some ⟨AddressingMode.AbsoluteIndexedX, Mnemomic.ROR, op_ror⟩,               -- 0x7E
  some ⟨AddressingMode.ZeroPageRelative, Mnemomic.BBRN 7, op_alias_bbr7⟩]     -- 0x7F

/-- Opcodes 0x80 - 0x8F of the dispatch table. -/
def OPERATIONS_8 : List (Option Operation) := [
  some ⟨AddressingMode.ProgramCounterRelative, Mnemomic.BRA, op_bra⟩,         -- 0x80
  some ⟨AddressingMode.ZeroPageIndexedIndirect, Mnemomic.STA, op_sta⟩,        -- 0x81
  none,                                                                       -- 0x82
  none,                                                                       -- 0x83
  some ⟨AddressingMode.ZeroPage, Mnemomic.STY, op_sty⟩,                       -- 0x84
  some ⟨AddressingMode.ZeroPage, Mnemomic.STA, op_sta⟩,                       -- 0x85
  some ⟨AddressingMode.ZeroPage, Mnemomic.STX, op_stx⟩,                       -- 0x86
  some ⟨AddressingMode.ZeroPage, Mnemomic.SMBN 0, op_alias_smb0⟩,             -- 0x87
  some ⟨AddressingMode.Implied, Mnemomic.DEY, op_dey⟩,                        -- 0x88
  some ⟨AddressingMode.Immediate, Mnemomic.BIT, op_bit⟩,                      -- 0x89
  some ⟨AddressingMode.Implied, Mnemomic.TXA, op_txa⟩,                        -- 0x8A
  none,                                                                       -- 0x8B
  some ⟨AddressingMode.Absolute, Mnemomic.STY, op_sty⟩,                       -- 0x8C
  some ⟨AddressingMode.Absolute, Mnemomic.STA, op_sta⟩,                       -- 0x8D
  some ⟨AddressingMode.Absolute, Mnemomic.STX, op_stx⟩,                       -- 0x8E
  some ⟨AddressingMode.ZeroPageRelative, Mnemomic.BBSN 0, op_alias_bbs0⟩]     -- 0x8F

/-- Opcodes 0x90 - 0x9F of the dispatch table. -/
def OPERATIONS_9 : List (Option Operation) := [
  some ⟨AddressingMode.ProgramCounterRelative, Mnemomic.BCC, op_bcc⟩,         -- 0x90
  some ⟨AddressingMode.ZeroPageIndirectIndexedY, Mnemomic.STA, op_sta⟩,       -- 0x91
  some ⟨AddressingMode.ZeroPageIndirect, Mnemomic.STA, op_sta⟩,               -- 0x92
  none,                                                                       -- 0x93
  some ⟨AddressingMode.ZeroPageIndexedX, Mnemomic.STY, op_sty⟩,               -- 0x94
  some ⟨AddressingMode.ZeroPageIndexedX, Mnemomic.STA, op_sta⟩,               -- 0x95
  some ⟨AddressingMode.ZeroPageIndexedY, Mnemomic.STX, op_stx⟩,               -- 0x96
  some ⟨AddressingMode.ZeroPage, Mnemomic.SMBN 1, op_alias_smb1⟩,             -- 0x97
  some ⟨AddressingMode.Implied, Mnemomic.TYA, op_tya⟩,                        -- 0x98
  some ⟨AddressingMode.AbsoluteIndexedY, Mnemomic.STA, op_sta⟩,               -- 0x99
  some ⟨AddressingMode.Implied, Mnemomic.TXS, op_txs⟩,                        -- 0x9A
  none,                                                                       -- 0x9B
  some ⟨AddressingMode.AbsoluteIndexedX, Mnemomic.STZ, op_stz⟩,               -- 0x9C
  some ⟨AddressingMode.AbsoluteIndexedX, Mnemomic.STA, op_sta⟩,               -- 0x9D
  some ⟨AddressingMode.AbsoluteIndexedY, Mnemomic.STZ, op_stz⟩,               -- 0x9E
  some ⟨AddressingMode.ZeroPageRelative, Mnemomic.BBSN 1, op_alias_bbs1⟩]     -- 0x9F

/-- Opcodes 0xA0 - 0xAF of the dispatch table. -/
def OPERATIONS_A : List (Option Operation) := [
  some ⟨AddressingMode.Immediate, Mnemomic.LDY, op_ldy⟩,                      -- 0xA0
  some ⟨AddressingMode.ZeroPageIndexedIndirect, Mnemomic.LDA, op_lda⟩,        -- 0xA1
  some ⟨AddressingMode.Immediate, Mnemomic.LDX, op_ldx⟩,                      -- 0xA2
  none,                                                                       -- 0xA3
  some ⟨AddressingMode.ZeroPage, Mnemomic.LDY, op_ldy⟩,                       -- 0xA4
  some ⟨AddressingMode.ZeroPage, Mnemomic.LDA, op_lda⟩,                       -- 0xA5
  some ⟨AddressingMode.ZeroPage, Mnemomic.LDX, op_ldx⟩,                       -- 0xA6
  some ⟨AddressingMode.ZeroPage, Mnemomic.SMBN 2, op_alias_smb2⟩,             -- 0xA7
  some ⟨AddressingMode.Implied, Mnemomic.TAY, op_tay⟩,                        -- 0xA8
  some ⟨AddressingMode.Immediate, Mnemomic.LDA, op_lda⟩,                      -- 0xA9
  some ⟨AddressingMode.Implied, Mnemomic.TAX, op_tax⟩,                        -- 0xAA
  none,                                                                       -- 0xAB
  some ⟨AddressingMode.Absolute, Mnemomic.LDY, op_ldy⟩,                       -- 0xAC
  some ⟨AddressingMode.Absolute, Mnemomic.LDA, op_lda⟩,                       -- 0xAD
  some ⟨AddressingMode.Absolute, Mnemomic.LDX, op_ldx⟩,                       -- 0xAE
  some ⟨AddressingMode.ZeroPageRelative, Mnemomic.BBSN 2, op_alias_bbs2⟩]     -- 0xAF

/-- Opcodes 0xB0 - 0xBF of the dispatch table. -/
def OPERATIONS_B : List (Option Operation) := [
  some ⟨AddressingMode.ProgramCounterRelative, Mnemomic.BCS, op_bcs⟩,         -- 0xB0
  some ⟨AddressingMode.ZeroPageIndirectIndexedY, Mnemomic.LDA, op_lda⟩,       -- 0xB1
  some ⟨AddressingMode.ZeroPageIndirect, Mnemomic.LDA, op_lda⟩,               -- 0xB2
  none,                                                                       -- 0xB3
  some ⟨AddressingMode.ZeroPageIndexedX, Mnemomic.LDY, op_ldy⟩,               -- 0xB4
  some ⟨AddressingMode.ZeroPageIndexedX, Mnemomic.LDA, op_lda⟩,               -- 0xB5
  some ⟨AddressingMode.ZeroPageIndexedY, Mnemomic.LDX, op_ldx⟩,               -- 0xB6
  some ⟨AddressingMode.ZeroPage, Mnemomic.SMBN 3, op_alias_smb3⟩,             -- 0xB7
  some ⟨AddressingMode.Implied, Mnemomic.CLV, op_clv⟩,                        -- 0xB8
  some ⟨AddressingMode.AbsoluteIndexedY, Mnemomic.LDA, op_lda⟩,               -- 0xB9
  some ⟨AddressingMode.Implied, Mnemomic.TSX, op_tsx⟩,                        -- 0xBA
  none,                                                                       -- 0xBB
  some ⟨AddressingMode.AbsoluteIndexedX, Mnemomic.LDY, op_ldy⟩,               -- 0xBC
  some ⟨AddressingMode.AbsoluteIndexedX, Mnemomic.LDA, op_lda⟩,               -- 0xBD
  some ⟨AddressingMode.AbsoluteIndexedY, Mnemomic.LDX, op_ldx⟩,               -- 0xBE
  some ⟨AddressingMode.ZeroPageRelative, Mnemomic.BBSN 3, op_alias_bbs3⟩]     -- 0xBF

/-- Opcodes 0xC0 - 0xCF of the dispatch table. -/
def OPERATIONS_C : List (Option Operation) := [
  some ⟨AddressingMode.Immediate, Mnemomic.CPY, op_cpy⟩,                      -- 0xC0
  some ⟨AddressingMode.ZeroPageIndexedIndirect, Mnemomic.CMP, op_cmp⟩,        -- 0xC1
  none,                                                                       -- 0xC2
  none,                                                                       -- 0xC3
  some ⟨AddressingMode.ZeroPage, Mnemomic.CPY, op_cpy⟩,                       -- 0xC4
  some ⟨AddressingMode.ZeroPage, Mnemomic.CMP, op_cmp⟩,                       -- 0xC5
  some ⟨AddressingMode.ZeroPage, Mnemomic.DEC, op_dec⟩,                       -- 0xC6
  some ⟨AddressingMode.ZeroPage, Mnemomic.SMBN 4, op_alias_smb4⟩,             -- 0xC7
  some ⟨AddressingMode.Implied, Mnemomic.INY, op_iny⟩,                        -- 0xC8
  some ⟨AddressingMode.Immediate, Mnemomic.CMP, op_cmp⟩,                      -- 0xC9
  some ⟨AddressingMode.Implied, Mnemomic.DEX, op_dex⟩,                        -- 0xCA
  some ⟨AddressingMode.Implied, Mnemomic.WAI, op_wai⟩,                        -- 0xCB
  some ⟨AddressingMode.Absolute, Mnemomic.CPY, op_cpy⟩,                       -- 0xCC
  some ⟨AddressingMode.Absolute, Mnemomic.CMP, op_cmp⟩,                       -- 0xCD
  some ⟨AddressingMode.Absolute, Mnemomic.DEC, op_dec⟩,                       -- 0xCE
  some ⟨AddressingMode.ZeroPageRelative, Mnemomic.BBSN 4, op_alias_bbs4⟩]     -- 0xCF

/-- Opcodes 0xD0 - 0xDF of the dispatch table. -/
def OPERATIONS_D : List (Option Operation) := [
  some ⟨AddressingMode.ProgramCounterRelative, Mnemomic.BNE, op_bne⟩,         -- 0xD0
  some ⟨AddressingMode.ZeroPageIndirectIndexedY, Mnemomic.CMP, op_cmp⟩,       -- 0xD1
  some ⟨AddressingMode.ZeroPageIndirect, Mnemomic.CMP, op_cmp⟩,               -- 0xD2
  none,                                                                       -- 0xD3
  none,                                                                       -- 0xD4
  some ⟨AddressingMode.ZeroPageIndexedX, Mnemomic.CMP, op_cmp⟩,               -- 0xD5
  some ⟨AddressingMode.ZeroPageIndexedX, Mnemomic.DEC, op_dec⟩,               -- 0xD6
  some ⟨AddressingMode.ZeroPage, Mnemomic.SMBN 5, op_alias_smb5⟩,             -- 0xD7
  some ⟨AddressingMode.Implied, Mnemomic.CLD, op_cld⟩,                        -- 0xD8
  some ⟨AddressingMode.AbsoluteIndexedY, Mnemomic.CMP, op_cmp⟩,               -- 0xD9
  some ⟨AddressingMode.Implied, Mnemomic.PHX, op_phx⟩,                        -- 0xDA
  some ⟨AddressingMode.Implied, Mnemomic.STP, op_stp⟩,                        -- 0xDB
  none,                                                                       -- 0xDC
  some ⟨AddressingMode.AbsoluteIndexedX, Mnemomic.CMP, op_cmp⟩,               -- 0xDD
  some ⟨AddressingMode.AbsoluteIndexedX, Mnemomic.DEC, op_dec⟩,               -- 0xDE
  some ⟨AddressingMode.ZeroPageRelative, Mnemomic.BBSN 5, op_alias_bbs5⟩]     -- 0xDF

/-- Opcodes 0xE0 - 0xEF of the dispatch table. -/
def OPERATIONS_E : List (Option Operation) := [
  some ⟨AddressingMode.Immediate, Mnemomic.CPX, op_cpx⟩,                      -- 0xE0
  some ⟨AddressingMode.ZeroPageIndexedIndirect, Mnemomic.SBC, op_sbc⟩,        -- 0xE1
  none,                                                                       -- 0xE2
  none,                                                                       -- 0xE3
  some ⟨AddressingMode.ZeroPage, Mnemomic.CPX, op_cpx⟩,                       -- 0xE4
  some ⟨AddressingMode.ZeroPage, Mnemomic.SBC, op_sbc⟩,                       -- 0xE5
  some ⟨AddressingMode.ZeroPage, Mnemomic.INC, op_inc⟩,                       -- 0xE6
  some ⟨AddressingMode.ZeroPage, Mnemomic.SMBN 6, op_alias_smb6⟩,             -- 0xE7
  some ⟨AddressingMode.Implied, Mnemomic.INX, op_inx⟩,                        -- 0xE8
  some ⟨AddressingMode.Immediate, Mnemomic.SBC, op_sbc⟩,                      -- 0xE9
  some ⟨AddressingMode.Implied, Mnemomic.NOP, op_nop⟩,                        -- 0xEA
  none,                                                                       -- 0xEB
  some ⟨AddressingMode.Absolute, Mnemomic.CPX, op_cpx⟩,                       -- 0xEC
  some ⟨AddressingMode.Absolute, Mnemomic.SBC, op_sbc⟩,                       -- 0xED
  some ⟨AddressingMode.Absolute, Mnemomic.INC, op_inc⟩,                       -- 0xEE
  some ⟨AddressingMode.ZeroPageRelative, Mnemomic.BBSN 6, op_alias_bbs6⟩]     -- 0xEF

/-- Opcodes 0xF0 - 0xFF of the dispatch table. -/
def OPERATIONS_F : List (Option Operation) := [
  some ⟨AddressingMode.ProgramCounterRelative, Mnemomic.BEQ, op_beq⟩,         -- 0xF0
  some ⟨AddressingMode.ZeroPageIndirectIndexedY, Mnemomic.SBC, op_sbc⟩,       -- 0xF1
  some ⟨AddressingMode.ZeroPageIndirect, Mnemomic.SBC, op_sbc⟩,               -- 0xF2
  none,                                                                       -- 0xF3
  none,                                                                       -- 0xF4
  some ⟨AddressingMode.ZeroPageIndexedX, Mnemomic.SBC, op_sbc⟩,               -- 0xF5
  some ⟨AddressingMode.ZeroPageIndexedX, Mnemomic.INC, op_inc⟩,               -- 0xF6
  some ⟨AddressingMode.ZeroPage, Mnemomic.SMBN 7, op_alias_smb7⟩,             -- 0xF7
  some ⟨AddressingMode.Implied, Mnemomic.SED, op_sed⟩,                        -- 0xF8
  some ⟨AddressingMode.AbsoluteIndexedY, Mnemomic.SBC, op_sbc⟩,               -- 0xF9
  some ⟨AddressingMode.Stack, Mnemomic.PLX, op_plx⟩,                          -- 0xFA
  none,                                                                       -- 0xFB
  none,                                                                       -- 0xFC
  some ⟨AddressingMode.AbsoluteIndexedX, Mnemomic.SBC, op_sbc⟩,               -- 0xFD
  some ⟨AddressingMode.AbsoluteIndexedX, Mnemomic.INC, op_inc⟩,               -- 0xFE
  some ⟨AddressingMode.ZeroPageRelative, Mnemomic.BBSN 7, op_alias_bbs7⟩]     -- 0xFF

/-- `W65C02S::OPERATIONS`: all 256 entries in opcode order. -/
def OPERATIONS : List (Option Operation) :=
  OPERATIONS_0 ++ OPERATIONS_1 ++ OPERATIONS_2 ++ OPERATIONS_3 ++ OPERATIONS_4 ++ OPERATIONS_5 ++ OPERATIONS_6 ++ OPERATIONS_7 ++ OPERATIONS_8 ++ OPERATIONS_9 ++ OPERATIONS_A ++ OPERATIONS_B ++ OPERATIONS_C ++ OPERATIONS_D ++ OPERATIONS_E ++ OPERATIONS_F

/-- `W65C02S::step`: fetch the opcode, look up the operation (invalid →
`InvalidOpcode`), resolve the operand, run the handler, return the mnemonic.
`none` models a panic inside a handler. -/
def step (cpu : W65C02S) (bus : Bus) :
    Option (Except CpuError Mnemomic × W65C02S × Bus) :=
  let f := fetch_u8 cpu bus
  match OPERATIONS.getD f.1 Option.none with
  | Option.none => some (Except.error (CpuError.InvalidOpcode f.1), f.2, bus)
  | Option.some operation =>
    let rc := resolve_operand f.2 bus operation.addressing_mode
    match operation.exec rc.2 bus rc.1 with
    | none => none
    | some (Except.error e, cpu3, bus3) => some (Except.error e, cpu3, bus3)
    | some (Except.ok _, cpu3, bus3) => some (Except.ok operation.mnemomic, cpu3, bus3)

/-- `RAMSegment` (memory.rs): a vector of 256-byte pages.  A `MemoryPage`
is modelled as its `List Nat` of 256 byte cells; `write_unchecked` at a u8
offset is `List.set`. -/
structure RAMSegment where
  pages : List (List Nat)
  size_bytes : Nat
  deriving DecidableEq

/-- `RAMSegment::new`: `num_pages` zeroed pages, `size_bytes = 256 * num_pages`. -/
def RAMSegment.new (num_pages : Nat) : RAMSegment :=
  { pages := List.replicate num_pages (List.replicate 256 0),
    size_bytes := 256 * num_pages }

/-- The `for byte in bytes` loop of `RAMSegment::load`.  The guard is the
source's `if i > self.size_bytes {break;}` (note `>`, not `>=`).
`self.pages[page]` with `page >= pages.len()` is a Rust index-out-of-bounds
panic, modelled as `none`. -/
def ram_load_loop (pages : List (List Nat)) (size_bytes : Nat)
    (bytes : List Nat) (i : Nat) : Option (List (List Nat)) :=
  match bytes with
  | [] => some pages
  | byte :: rest =>
    if size_bytes < i then some pages
    else
      let page := i >>> 8
      let offset := i &&& 255
      if page < pages.length then
        ram_load_loop (pages.set page ((pages.getD page []).set offset byte))
          size_bytes rest (i + 1)
      else none

/-- `RAMSegment::load`: copy `bytes` into the pages starting at page 0
offset 0; `none` models the panic inside the loop. -/
def RAMSegment.load (seg : RAMSegment) (bytes : List Nat) : Option RAMSegment :=
  match ram_load_loop seg.pages seg.size_bytes bytes 0 with
  | some pages => some { seg with pages := pages }
  | none => none

/-- Outcome of the per-ROM-file prefix of `main` (main.rs): did it panic,
return `Err(ProgramError::MalformedRomFile)`, or reach the emulation loop. -/
inductive DriverCheck where
  | panicked
  | malformed
  | proceeds
  deriving DecidableEq

/-- The per-file ROM handling in `main` up to the emulation loop, in source
order: `Machine::new_32k_ram_32k_rom(&rom[0x8000..])` runs BEFORE the
`rom.len() < rom_size` check.  The slice `&rom[0x8000..]` panics when the
file is shorter than 0x8000 bytes, and `Machine::new_32k_ram_32k_rom`
panics when the image slice exceeds the 32 KiB ROM capacity. -/
def rom_file_check (rom : List Nat) : DriverCheck :=
  if rom.length < 0x8000 then DriverCheck.panicked
  else if 32768 < rom.length - 0x8000 then DriverCheck.panicked
  else if rom.length < 32768 then DriverCheck.malformed
  else DriverCheck.proceeds

/-- An all-zero bus with an empty write log, for concrete scenarios. -/
def bus0 : Bus := { data := fun _ => 0, log := [] }

/-- A bus whose reset vector holds `0x1234` little-endian (`0x34` at
`0xFFFC`, `0x12` at `0xFFFD`), every other byte 0. -/
def reset_vector_bus : Bus :=
  { data := fun a => if a = 0xFFFC then 0x34 else if a = 0xFFFD then 0x12 else 0,
    log := [] }

/-! Helper lemmas about the byte- and word-level bit operations. -/

theorem shiftLeft_or_eq_add : ∀ (n : Nat), ∀ (h l : Nat), l < 2 ^ n →
    (h <<< n) ||| l = 2 ^ n * h + l := by
  intro n
  induction n with
  | zero =>
    intro h l hl
    interval_cases l
    simp [Nat.shiftLeft_zero]
  | succ n ih =>
    intro h l hl
    have hdecomp : l = 2 * (l / 2) + l % 2 := by omega
    have hshift : h <<< (n + 1) = 2 * (h <<< n) := by
      simp [Nat.shiftLeft_eq, Nat.pow_succ]
      ring
    have hstep : (2 * (h <<< n)) ||| (2 * (l / 2) + l % 2)
        = 2 * ((h <<< n) ||| (l / 2)) + l % 2 := by
      have hb : l % 2 = 0 ∨ l % 2 = 1 := by omega
      rcases hb with h0 | h1
      · rw [h0]
        simpa using Nat.lor_bit false (h <<< n) false (l / 2)
      · rw [h1]
        simpa using Nat.lor_bit false (h <<< n) true (l / 2)
    have hdiv : l / 2 < 2 ^ n := by
      have := Nat.pow_succ 2 n
      omega
    have hpow : 2 ^ (n + 1) * h = 2 * (2 ^ n * h) := by
      rw [Nat.pow_succ]
      ring
    rw [hshift]
    calc (2 * (h <<< n)) ||| l
        = (2 * (h <<< n)) ||| (2 * (l / 2) + l % 2) := by rw [← hdecomp]
      _ = 2 * ((h <<< n) ||| (l / 2)) + l % 2 := hstep
      _ = 2 * (2 ^ n * h + l / 2) + l % 2 := by rw [ih h (l / 2) hdiv]
      _ = 2 ^ (n + 1) * h + l := by rw [hpow]; omega

/-- Assembling a high and a low byte with `(h <<< 8) ||| l` is `256*h + l`. -/
theorem byte_or (h l : Nat) (hl : l < 256) : (h <<< 8) ||| l = 256 * h + l := by
  have := shiftLeft_or_eq_add 8 h l (by norm_num [hl])
  norm_num at this
  exact this

theorem and255_eq_mod (x : Nat) : x &&& 255 = x % 256 := by
  have h := Nat.and_pow_two_sub_one_eq_mod x 8
  norm_num at h
  exact h

theorem shiftRight8_eq_div (x : Nat) : x >>> 8 = x / 256 := by
  have h := Nat.shiftRight_eq_div_pow x 8
  norm_num at h
  exact h

/-- A value split into high byte and low byte and reassembled is itself
modulo 65536; for 16-bit values this is the identity. -/
theorem assemble16 (x : Nat) :
    ((x >>> 8) <<< 8) ||| (x &&& 255) = x := by
  have hm := and255_eq_mod x
  have hd := shiftRight8_eq_div x
  have hl : x &&& 255 < 256 := by omega
  rw [byte_or _ _ hl]
  omega

/-- The stack address `0x0100 | SP` is `256 + SP` for a byte SP. -/
theorem stack_addr_eq (s : Nat) (hs : s < 256) : 0x0100 ||| s = 256 + s := by
  have h := byte_or 1 s hs
  have h2 : (1 : Nat) <<< 8 = 256 := by decide
  rw [h2] at h
  rw [h]

set_option maxRecDepth 4000 in
/-- Flag extraction through the `C, V, Z, N` status-set chain used by
`op_adc` and `op_sbc`. -/
theorem adc_flag_chain : ∀ p : Fin 256, ∀ c vf z n : Bool,
    (decide (0 < pset (pset (pset (pset p.val 1 c) 64 vf) 2 z) 128 n &&& 1) = c) ∧
    (decide (0 < pset (pset (pset (pset p.val 1 c) 64 vf) 2 z) 128 n &&& 64) = vf) ∧
    (decide (0 < pset (pset (pset (pset p.val 1 c) 64 vf) 2 z) 128 n &&& 2) = z) ∧
    (decide (0 < pset (pset (pset (pset p.val 1 c) 64 vf) 2 z) 128 n &&& 128) = n) := by
  decide

set_option maxRecDepth 4000 in
/-- Flag extraction for the single `Z` status-set performed by immediate
`BIT`: `Z` is written and every other bit of `P` is untouched. -/
theorem bit_imm_flag_chain : ∀ p : Fin 256, ∀ z : Bool,
    (decide (0 < pset p.val 2 z &&& 2) = z) ∧
    pset p.val 2 z &&& 253 = p.val &&& 253 ∧
    pset p.val 2 z &&& 1 = p.val &&& 1 ∧
    pset p.val 2 z &&& 4 = p.val &&& 4 ∧
    pset p.val 2 z &&& 8 = p.val &&& 8 ∧
    pset p.val 2 z &&& 64 = p.val &&& 64 ∧
    pset p.val 2 z &&& 128 = p.val &&& 128 := by
  decide

set_option maxRecDepth 4000 in
/-- Flag extraction through the `Z, N, V` status-set chain used by
non-immediate `BIT`. -/
theorem bit_mem_flag_chain : ∀ p : Fin 256, ∀ z n vb : Bool,
    (decide (0 < pset (pset (pset p.val 2 z) 128 n) 64 vb &&& 2) = z) ∧
    (decide (0 < pset (pset (pset p.val 2 z) 128 n) 64 vb &&& 128) = n) ∧
    (decide (0 < pset (pset (pset p.val 2 z) 128 n) 64 vb &&& 64) = vb) := by
  decide

set_option maxRecDepth 4000 in
/-- `(pulled | 0x20) & !0x10` always has bit 5 set and bit 4 clear. -/
theorem plp_mask_bits : ∀ v : Fin 256,
    ((v.val ||| 32) &&& (16 ^^^ 255)) &&& 32 = 32 ∧
    ((v.val ||| 32) &&& (16 ^^^ 255)) &&& 16 = 0 := by
  decide

set_option maxRecDepth 4000 in
/-- Setting the `I` flag makes bit 2 read as set. -/
theorem iset_bit : ∀ p : Fin 256, pset p.val 4 true &&& 4 = 4 := by decide

set_option maxRecDepth 4000 in
/-- For a byte, `(v >> 7) > 0` is exactly `testBit 7`. -/
theorem byte_shift7_testBit : ∀ r : Fin 256,
    decide (0 < r.val >>> 7) = r.val.testBit 7 := by decide

set_option maxRecDepth 4000 in
/-- For a byte, `(v & 0x40) > 0` is exactly `testBit 6`. -/
theorem byte_and64_testBit : ∀ r : Fin 256,
    decide (0 < r.val &&& 64) = r.val.testBit 6 := by decide

set_option maxRecDepth 4000 in
/-- Byte complement by `^^^ 255` stays a byte. -/
theorem byte_not_lt : ∀ m : Fin 256, m.val ^^^ 255 < 256 := by decide

/-- Complementing the operand flips one side of the xor in the ADC/SBC
overflow expression. -/
theorem xor_not_not (a m : Nat) : (a ^^^ (m ^^^ 255)) ^^^ 255 = a ^^^ m := by
  rw [Nat.xor_assoc, Nat.xor_assoc, Nat.xor_self, Nat.xor_zero]

/-! `Nat`-level restatements of the `Fin 256` decision lemmas, so that they
rewrite directly against goals about machine bytes. -/

theorem adc_flag_chain_nat (p : Nat) (hp : p < 256) (c vf z n : Bool) :
    (decide (0 < pset (pset (pset (pset p 1 c) 64 vf) 2 z) 128 n &&& 1) = c) ∧
    (decide (0 < pset (pset (pset (pset p 1 c) 64 vf) 2 z) 128 n &&& 64) = vf) ∧
    (decide (0 < pset (pset (pset (pset p 1 c) 64 vf) 2 z) 128 n &&& 2) = z) ∧
    (decide (0 < pset (pset (pset (pset p 1 c) 64 vf) 2 z) 128 n &&& 128) = n) :=
  adc_flag_chain ⟨p, hp⟩ c vf z n

theorem bit_imm_flag_chain_nat (p : Nat) (hp : p < 256) (z : Bool) :
    (decide (0 < pset p 2 z &&& 2) = z) ∧
    pset p 2 z &&& 253 = p &&& 253 ∧
    pset p 2 z &&& 1 = p &&& 1 ∧
    pset p 2 z &&& 4 = p &&& 4 ∧
    pset p 2 z &&& 8 = p &&& 8 ∧
    pset p 2 z &&& 64 = p &&& 64 ∧
    pset p 2 z &&& 128 = p &&& 128 :=
  bit_imm_flag_chain ⟨p, hp⟩ z

theorem bit_mem_flag_chain_nat (p : Nat) (hp : p < 256) (z n vb : Bool) :
    (decide (0 < pset (pset (pset p 2 z) 128 n) 64 vb &&& 2) = z) ∧
    (decide (0 < pset (pset (pset p 2 z) 128 n) 64 vb &&& 128) = n) ∧
    (decide (0 < pset (pset (pset p 2 z) 128 n) 64 vb &&& 64) = vb) :=
  bit_mem_flag_chain ⟨p, hp⟩ z n vb

theorem plp_mask_bits_nat (v : Nat) (hv : v < 256) :
    ((v ||| 32) &&& (16 ^^^ 255)) &&& 32 = 32 ∧
    ((v ||| 32) &&& (16 ^^^ 255)) &&& 16 = 0 :=
  plp_mask_bits ⟨v, hv⟩

theorem iset_bit_nat (p : Nat) (hp : p < 256) : pset p 4 true &&& 4 = 4 :=
  iset_bit ⟨p, hp⟩

theorem byte_shift7_testBit_nat (v : Nat) (hv : v < 256) :
    decide (0 < v >>> 7) = v.testBit 7 :=
  byte_shift7_testBit ⟨v, hv⟩

theorem byte_and64_testBit_nat (v : Nat) (hv : v < 256) :
    decide (0 < v &&& 64) = v.testBit 6 :=
  byte_and64_testBit ⟨v, hv⟩

theorem mod256_shift7_testBit (x : Nat) :
    decide (0 < (x % 256) >>> 7) = (x % 256).testBit 7 :=
  byte_shift7_testBit ⟨x % 256, Nat.mod_lt _ (by norm_num)⟩

/-! The claims. -/

/-- C1: for every CPU state and operand byte `M`, ADC sets `A` to
`(A + M + C) mod 256`, sets the carry flag iff the unbounded sum
`A + M + C` exceeds `0xFF`, sets `V` iff `((~(A^M)) & (A^result)) & 0x80`
is nonzero, sets `Z` iff the result is 0 and `N` iff bit 7 of the result
is set; and in particular with `A = 0x50`, `C = 0`, `M = 0x50` the result
is `A = 0xA0`, `C = 0`, `V = 1`, `N = 1`, `Z = 0`. -/
theorem adc_correct :
    (∀ (cpu : W65C02S) (bus : Bus) (m : Nat), cpu.Wf → m < 256 →
      ∃ cpu1 : W65C02S,
        op_adc cpu bus ⟨Operand.Value m, false⟩ = some (Except.ok (), cpu1, bus) ∧
        cpu1.a_register =
          (cpu.a_register + m + (if cpu.status_check Status.C then 1 else 0)) % 256 ∧
        (cpu1.status_check Status.C = true ↔
          255 < cpu.a_register + m + (if cpu.status_check Status.C then 1 else 0)) ∧
        (cpu1.status_check Status.V = true ↔
          (((cpu.a_register ^^^ m) ^^^ 255) &&&
            (cpu.a_register ^^^ ((cpu.a_register + m + (if cpu.status_check Status.C then 1 else 0)) % 256))) &&& 128 ≠ 0) ∧
        (cpu1.status_check Status.Z = true ↔
          (cpu.a_register + m + (if cpu.status_check Status.C then 1 else 0)) % 256 = 0) ∧
        (cpu1.status_check Status.N = true ↔
          Nat.testBit ((cpu.a_register + m + (if cpu.status_check Status.C then 1 else 0)) % 256) 7 = true)) ∧
    (∃ cpu1 : W65C02S,
      op_adc ⟨0x8000, 0x50, 0, 0, 0xFD, 0x34⟩ bus0 ⟨Operand.Value 0x50, false⟩ =
        some (Except.ok (), cpu1, bus0) ∧
      cpu1.a_register = 0xA0 ∧ cpu1.status_check Status.C = false ∧
      cpu1.status_check Status.V = true ∧ cpu1.status_check Status.N = true ∧
      cpu1.status_check Status.Z = false) := by
  constructor
  · intro cpu bus m hwf hm
    obtain ⟨hpc, ha, hy, hx, hsp, hp⟩ := hwf
    have hread : (Operand.Value m).read cpu bus = Except.ok m := rfl
    simp only [op_adc, hread, W65C02S.status_update_zn, W65C02S.status_set,
      W65C02S.status_check, Status.mask]
    refine ⟨_, rfl, rfl, ?_, ?_, ?_, ?_⟩
    · rw [(adc_flag_chain_nat _ hp _ _ _ _).1]
      simp
    · rw [(adc_flag_chain_nat _ hp _ _ _ _).2.1]
      simp
    · rw [(adc_flag_chain_nat _ hp _ _ _ _).2.2.1]
      simp
    · rw [(adc_flag_chain_nat _ hp _ _ _ _).2.2.2, mod256_shift7_testBit]
  · refine ⟨⟨0x8000, 0xA0, 0, 0, 0xFD, 0xF4⟩, ?_, rfl, rfl, rfl, rfl, rfl⟩
    rfl

/-- C1 witness: the hypotheses of `adc_correct` hold at a concrete input
and the conclusion produces a successful result there. -/
theorem adc_correct_witness :
    (W65C02S.mk 0x8000 0x50 0 0 0xFD 0x34).Wf ∧ (0x50 : Nat) < 256 ∧
    ∃ cpu1 : W65C02S,
      op_adc ⟨0x8000, 0x50, 0, 0, 0xFD, 0x34⟩ bus0 ⟨Operand.Value 0x50, false⟩ =
        some (Except.ok (), cpu1, bus0) := by
  have hwf : (W65C02S.mk 0x8000 0x50 0 0 0xFD 0x34).Wf := by
    unfold W65C02S.Wf
    decide
  refine ⟨hwf, by norm_num, ?_⟩
  obtain ⟨cpu1, h, _⟩ :=
    adc_correct.1 ⟨0x8000, 0x50, 0, 0, 0xFD, 0x34⟩ bus0 0x50 hwf (by norm_num)
  exact ⟨cpu1, h⟩

/-- C2: executing SBC with operand byte `M` leaves the CPU (and the bus) in
exactly the same state as executing ADC with the complemented operand
`~M = M ^^^ 255`: same `A`, same `P` (all of `C`, `V`, `Z`, `N`), same PC. -/
theorem sbc_is_adc_complement (cpu : W65C02S) (bus : Bus) (m : Nat) (b : Bool)
    (hwf : cpu.Wf) (hm : m < 256) :
    op_sbc cpu bus ⟨Operand.Value m, b⟩ = op_adc cpu bus ⟨Operand.Value (m ^^^ 255), b⟩ := by
  obtain ⟨hpc, ha, hy, hx, hsp, hp⟩ := hwf
  have hnot : m ^^^ 255 < 256 := byte_not_lt ⟨m, hm⟩
  have hread1 : (Operand.Value m).read cpu bus = Except.ok m := rfl
  have hread2 : (Operand.Value (m ^^^ 255)).read cpu bus = Except.ok (m ^^^ 255) := rfl
  simp only [op_sbc, op_adc, hread1, hread2]
  have hsum : ((cpu.a_register + (m ^^^ 255)) % 65536 +
      (if cpu.status_check Status.C then 1 else 0)) % 65536
      = cpu.a_register + (m ^^^ 255) + (if cpu.status_check Status.C then 1 else 0) := by
    split <;> omega
  rw [hsum]
  have hv : ((((cpu.a_register + (m ^^^ 255) + (if cpu.status_check Status.C then 1 else 0)) % 256 ^^^ cpu.a_register) &&&
      (cpu.a_register ^^^ m)) &&& 128)
      = ((((cpu.a_register ^^^ (m ^^^ 255)) ^^^ 255) &&&
      (cpu.a_register ^^^ (cpu.a_register + (m ^^^ 255) + (if cpu.status_check Status.C then 1 else 0)) % 256)) &&& 128) := by
    rw [xor_not_not]
    rw [Nat.xor_comm ((cpu.a_register + (m ^^^ 255) + (if cpu.status_check Status.C then 1 else 0)) % 256) cpu.a_register]
    rw [Nat.land_comm (cpu.a_register ^^^ (cpu.a_register + (m ^^^ 255) + (if cpu.status_check Status.C then 1 else 0)) % 256)]
  rw [hv]

/-- C2 witness: the hypotheses of `sbc_is_adc_complement` hold at a
concrete input and SBC equals ADC of the complement there. -/
theorem sbc_is_adc_complement_witness :
    (W65C02S.mk 0 0x50 0 0 0 0x34).Wf ∧ (0x10 : Nat) < 256 ∧
    op_sbc ⟨0, 0x50, 0, 0, 0, 0x34⟩ bus0 ⟨Operand.Value 0x10, false⟩ =
      op_adc ⟨0, 0x50, 0, 0, 0, 0x34⟩ bus0 ⟨Operand.Value (0x10 ^^^ 255), false⟩ := by
  have hwf : (W65C02S.mk 0 0x50 0 0 0 0x34).Wf := by
    unfold W65C02S.Wf
    decide
  exact ⟨hwf, by norm_num,
    sbc_is_adc_complement ⟨0, 0x50, 0, 0, 0, 0x34⟩ bus0 0x10 false hwf (by norm_num)⟩

set_option maxRecDepth 10000 in
/-- C3: the claim says `RAMSegment::load` always succeeds and silently
clamps at capacity, but the loop guard `i > size_bytes` is off by one: with
a 1-page (256-byte) segment and 257 input bytes the iteration at
`i = 256` passes the guard and indexes `pages[1]`, a panic.  At exactly
capacity (256 bytes) the load does succeed. -/
theorem ram_load_clamp_off_by_one :
    RAMSegment.load (RAMSegment.new 1) (List.replicate 257 0) = none ∧
    (RAMSegment.load (RAMSegment.new 1) (List.replicate 256 7)).isSome = true := by
  constructor
  · decide
  · decide

/-- C4: reset sets `P` to `0x34` and `PC` to the little-endian 16-bit
value at `0xFFFC`/`0xFFFD`; concretely, with `0x34`/`0x12` in the vector,
`PC = 0x1234` and `P = 0x34` afterwards. -/
theorem reset_spec :
    (∀ (cpu : W65C02S) (bus : Bus), Bus.Wf bus →
      (reset cpu bus).processor_status_register = 0x34 ∧
      (reset cpu bus).program_counter = 256 * bus.data 0xFFFD + bus.data 0xFFFC) ∧
    (∀ cpu : W65C02S,
      (reset cpu reset_vector_bus).program_counter = 0x1234 ∧
      (reset cpu reset_vector_bus).processor_status_register = 0x34) := by
  constructor
  · intro cpu bus hwfb
    refine ⟨rfl, ?_⟩
    simp only [reset, read_u16, Bus.read, RESB_LOW, W65C02S.set_p_default]
    have h : (0xFFFC + 1) % 65536 = 0xFFFD := by norm_num
    rw [h]
    exact byte_or _ _ (hwfb 0xFFFC)
  · intro cpu
    exact ⟨rfl, rfl⟩

theorem reset_vector_bus_wf : Bus.Wf reset_vector_bus := by
  intro a
  simp only [reset_vector_bus]
  split
  · norm_num
  · split <;> norm_num

/-- C4 witness: `reset_spec` applied to a concrete CPU and the concrete
reset-vector bus. -/
theorem reset_spec_witness :
    (reset ⟨0, 0, 0, 0, 0, 0⟩ reset_vector_bus).processor_status_register = 0x34 ∧
    (reset ⟨0, 0, 0, 0, 0, 0⟩ reset_vector_bus).program_counter =
      256 * reset_vector_bus.data 0xFFFD + reset_vector_bus.data 0xFFFC :=
  reset_spec.1 ⟨0, 0, 0, 0, 0, 0⟩ reset_vector_bus reset_vector_bus_wf

set_option maxRecDepth 10000 in
/-- C5: with `PC` already past the BRK opcode, BRK pushes the high byte of
`PC+1`, then its low byte, then `P | 0x10`, decrements `SP` by 3 with byte
wrap, sets the `I` flag, and loads `PC` from the little-endian vector at
`0xFFFE`/`0xFFFF`.  Concretely, with the opcode at `0x8050` (so `PC =
0x8051` post-fetch) the pushed return-address bytes are `0x80` then
`0x52`, then `P | 0x10`. -/
theorem brk_spec :
    (∀ (cpu : W65C02S) (bus : Bus) (r : ResolvedOperand), cpu.Wf → Bus.Wf bus →
      ∃ cpu1 bus1, op_brk cpu bus r = some (Except.ok (), cpu1, bus1) ∧
        bus1.data (0x0100 ||| cpu.stack_pointer) = ((cpu.program_counter + 1) % 65536) >>> 8 ∧
        bus1.data (0x0100 ||| ((cpu.stack_pointer + 255) % 256)) = ((cpu.program_counter + 1) % 65536) &&& 255 ∧
        bus1.data (0x0100 ||| ((cpu.stack_pointer + 254) % 256)) = cpu.processor_status_register ||| 16 ∧
        cpu1.stack_pointer = (cpu.stack_pointer + 253) % 256 ∧
        cpu1.status_check Status.I = true ∧
        cpu1.program_counter = 256 * bus.data 0xFFFF + bus.data 0xFFFE) ∧
    ((op_brk ⟨0x8051, 0, 0, 0, 0xFD, 0x34⟩ bus0 ⟨Operand.Implied, false⟩).map
        (fun x => (x.2.2.data 0x01FD, x.2.2.data 0x01FC, x.2.2.data 0x01FB)) =
      some (0x80, 0x52, 0x34 ||| 16)) := by
  constructor
  · intro cpu bus r hwf hwfb
    obtain ⟨hpc, ha, hy, hx, hsp, hp⟩ := hwf
    have h1 : (cpu.stack_pointer + 255) % 256 < 256 := Nat.mod_lt _ (by norm_num)
    have h2 : (cpu.stack_pointer + 254) % 256 < 256 := Nat.mod_lt _ (by norm_num)
    simp only [op_brk, stack_push_u8, Bus.write, Bus.read, W65C02S.status_check,
      Status.mask, IRQB_LOW]
    have heq2 : (((cpu.stack_pointer + 255) % 256 + 255) % 256 + 255) % 256
        = (cpu.stack_pointer + 253) % 256 := by omega
    have heq1 : ((cpu.stack_pointer + 255) % 256 + 255) % 256
        = (cpu.stack_pointer + 254) % 256 := by omega
    rw [heq2, heq1]
    rw [stack_addr_eq _ hsp, stack_addr_eq _ h1, stack_addr_eq _ h2]
    refine ⟨_, _, rfl, ?_, ?_, ?_, rfl, ?_, ?_⟩
    · dsimp only
      rw [if_neg (by omega), if_neg (by omega), if_pos rfl]
    · dsimp only
      rw [if_neg (by omega), if_pos rfl]
    · dsimp only
      rw [if_pos rfl]
    · dsimp only [W65C02S.status_set, Status.mask]
      rw [iset_bit_nat _ hp]
      rfl
    · dsimp only
      rw [if_neg (by omega), if_neg (by omega), if_neg (by omega),
        if_neg (by omega), if_neg (by omega), if_neg (by omega)]
      norm_num
      exact byte_or _ _ (hwfb 0xFFFE)
  · rfl

/-- C5 witness: the hypotheses of `brk_spec` hold at a concrete input and
BRK succeeds there. -/
theorem brk_spec_witness :
    (W65C02S.mk 0x8051 0 0 0 0xFD 0x34).Wf ∧ Bus.Wf bus0 ∧
    ∃ cpu1 bus1, op_brk ⟨0x8051, 0, 0, 0, 0xFD, 0x34⟩ bus0 ⟨Operand.Implied, false⟩ =
      some (Except.ok (), cpu1, bus1) := by
  have hwf : (W65C02S.mk 0x8051 0 0 0 0xFD 0x34).Wf := by
    unfold W65C02S.Wf
    decide
  have hwfb : Bus.Wf bus0 := by intro a; simp [bus0]
  refine ⟨hwf, hwfb, ?_⟩
  obtain ⟨cpu1, bus1, h, _⟩ :=
    brk_spec.1 ⟨0x8051, 0, 0, 0, 0xFD, 0x34⟩ bus0 ⟨Operand.Implied, false⟩ hwf hwfb
  exact ⟨cpu1, bus1, h⟩

set_option maxRecDepth 10000 in
/-- C6: JSR pushes `PC - 1` (high byte at the pre-push `SP`, then low
byte) and jumps to the target; an RTS executed next (its handler ignores
`PC`) pulls low then high and sets `PC` to that value plus one, restoring
`PC` to the instruction after the JSR and `SP` to its prior value. -/
theorem jsr_rts_roundtrip :
    ∀ (cpu : W65C02S) (bus : Bus) (target : Nat) (b b2 : Bool), cpu.Wf →
      ∃ cpu1 bus1, op_jsr cpu bus ⟨Operand.Address target, b⟩ = some (Except.ok (), cpu1, bus1) ∧
        cpu1.program_counter = target ∧
        bus1.data (0x0100 ||| cpu.stack_pointer) = ((cpu.program_counter + 65535) % 65536) >>> 8 ∧
        bus1.data (0x0100 ||| ((cpu.stack_pointer + 255) % 256)) = ((cpu.program_counter + 65535) % 65536) &&& 255 ∧
        ∃ cpu2 bus2, op_rts cpu1 bus1 ⟨Operand.Implied, b2⟩ = some (Except.ok (), cpu2, bus2) ∧
          cpu2.program_counter = cpu.program_counter ∧
          cpu2.stack_pointer = cpu.stack_pointer := by
  intro cpu bus target b b2 hwf
  obtain ⟨hpc, ha, hy, hx, hsp, hpr⟩ := hwf
  have h1 : (cpu.stack_pointer + 255) % 256 < 256 := Nat.mod_lt _ (by norm_num)
  simp only [op_jsr, op_rts, stack_push_u8, stack_pull_u8, Bus.write, Bus.read]
  rw [stack_addr_eq _ hsp, stack_addr_eq _ h1]
  refine ⟨_, _, rfl, rfl, ?_, ?_, ?_⟩
  · dsimp only
    rw [if_neg (by omega), if_pos rfl]
  · dsimp only
    rw [if_pos rfl]
  · dsimp only
    have hs3 : (((cpu.stack_pointer + 255) % 256 + 255) % 256 + 1) % 256
        = (cpu.stack_pointer + 255) % 256 := by omega
    have hs4 : ((cpu.stack_pointer + 255) % 256 + 1) % 256 = cpu.stack_pointer := by omega
    rw [hs3, hs4]
    rw [stack_addr_eq _ h1, stack_addr_eq _ hsp]
    rw [if_pos rfl]
    rw [if_neg (by omega), if_pos rfl]
    refine ⟨_, _, rfl, ?_, rfl⟩
    dsimp only
    rw [assemble16]
    omega

/-- C6 witness: the hypothesis of `jsr_rts_roundtrip` holds at a concrete
input and the JSR succeeds there. -/
theorem jsr_rts_roundtrip_witness :
    (W65C02S.mk 0x8003 0 0 0 0xFF 0x34).Wf ∧
    ∃ cpu1 bus1, op_jsr ⟨0x8003, 0, 0, 0, 0xFF, 0x34⟩ bus0 ⟨Operand.Address 0x9000, false⟩ =
      some (Except.ok (), cpu1, bus1) := by
  have hwf : (W65C02S.mk 0x8003 0 0 0 0xFF 0x34).Wf := by
    unfold W65C02S.Wf
    decide
  refine ⟨hwf, ?_⟩
  obtain ⟨cpu1, bus1, h, _⟩ :=
    jsr_rts_roundtrip ⟨0x8003, 0, 0, 0, 0xFF, 0x34⟩ bus0 0x9000 false false hwf
  exact ⟨cpu1, bus1, h⟩

/-- C7: after PLP or RTI the status register equals
`(pulled | 0x20) & !0x10`, whose bit 5 always reads as 1 and whose bit 4
always reads as 0, regardless of the pulled byte. -/
theorem plp_rti_status :
    ∀ (cpu : W65C02S) (bus : Bus) (r : ResolvedOperand), Bus.Wf bus →
      (op_plp cpu bus r).map (fun x => x.2.1.processor_status_register) =
        some ((bus.data (0x0100 ||| ((cpu.stack_pointer + 1) % 256)) ||| 32) &&& (16 ^^^ 255)) ∧
      (op_rti cpu bus r).map (fun x => x.2.1.processor_status_register) =
        some ((bus.data (0x0100 ||| ((cpu.stack_pointer + 1) % 256)) ||| 32) &&& (16 ^^^ 255)) ∧
      ((bus.data (0x0100 ||| ((cpu.stack_pointer + 1) % 256)) ||| 32) &&& (16 ^^^ 255)) &&& 32 = 32 ∧
      ((bus.data (0x0100 ||| ((cpu.stack_pointer + 1) % 256)) ||| 32) &&& (16 ^^^ 255)) &&& 16 = 0 := by
  intro cpu bus r hwfb
  refine ⟨rfl, rfl, ?_, ?_⟩
  · exact (plp_mask_bits_nat _ (hwfb _)).1
  · exact (plp_mask_bits_nat _ (hwfb _)).2

/-- C7 witness: the hypothesis of `plp_rti_status` holds at a concrete
input and both equalities hold there. -/
theorem plp_rti_status_witness :
    Bus.Wf bus0 ∧
    (op_plp ⟨0, 0, 0, 0, 0, 0⟩ bus0 ⟨Operand.Implied, false⟩).map
        (fun x => x.2.1.processor_status_register) =
      some ((bus0.data (0x0100 ||| ((0 + 1) % 256)) ||| 32) &&& (16 ^^^ 255)) := by
  have hwfb : Bus.Wf bus0 := by intro a; simp [bus0]
  exact ⟨hwfb, (plp_rti_status ⟨0, 0, 0, 0, 0, 0⟩ bus0 ⟨Operand.Implied, false⟩ hwfb).1⟩

/-- C8: immediate BIT sets `Z` iff `(A & v) = 0` and changes nothing else:
every other bit of `P` (`N`, `V`, `C`, `I`, `D`), the registers `A`, `X`,
`Y`, `SP` and `PC` are unchanged; only for non-immediate (memory) operands
does BIT also set `N` to bit 7 and `V` to bit 6 of the operand. -/
theorem bit_immediate_frame :
    (∀ (cpu : W65C02S) (bus : Bus) (v : Nat), cpu.Wf → v < 256 →
      ∃ cpu1 : W65C02S,
        op_bit cpu bus ⟨Operand.Value v, false⟩ = some (Except.ok (), cpu1, bus) ∧
        (cpu1.status_check Status.Z = true ↔ cpu.a_register &&& v = 0) ∧
        cpu1.processor_status_register &&& 253 = cpu.processor_status_register &&& 253 ∧
        cpu1.status_check Status.N = cpu.status_check Status.N ∧
        cpu1.status_check Status.V = cpu.status_check Status.V ∧
        cpu1.status_check Status.C = cpu.status_check Status.C ∧
        cpu1.status_check Status.I = cpu.status_check Status.I ∧
        cpu1.status_check Status.D = cpu.status_check Status.D ∧
        cpu1.a_register = cpu.a_register ∧ cpu1.x_register = cpu.x_register ∧
        cpu1.y_register = cpu.y_register ∧ cpu1.stack_pointer = cpu.stack_pointer ∧
        cpu1.program_counter = cpu.program_counter) ∧
    (∀ (cpu : W65C02S) (bus : Bus) (addr : Nat), cpu.Wf → Bus.Wf bus →
      ∃ cpu1 : W65C02S,
        op_bit cpu bus ⟨Operand.Address addr, false⟩ = some (Except.ok (), cpu1, bus) ∧
        (cpu1.status_check Status.Z = true ↔ cpu.a_register &&& bus.data addr = 0) ∧
        cpu1.status_check Status.N = Nat.testBit (bus.data addr) 7 ∧
        cpu1.status_check Status.V = Nat.testBit (bus.data addr) 6) := by
  constructor
  · intro cpu bus v hwf hv
    obtain ⟨hpc, ha, hy, hx, hsp, hp⟩ := hwf
    have hread : (Operand.Value v).read cpu bus = Except.ok v := rfl
    simp only [op_bit, hread, W65C02S.status_set, W65C02S.status_check, Status.mask]
    refine ⟨_, rfl, ?_, ?_, ?_, ?_, ?_, ?_, ?_, rfl, rfl, rfl, rfl, rfl⟩
    · rw [(bit_imm_flag_chain_nat _ hp _).1]
      simp
    · exact (bit_imm_flag_chain_nat _ hp _).2.1
    · exact decide_eq_decide.mpr
        (by rw [(bit_imm_flag_chain_nat _ hp (decide (cpu.a_register &&& v = 0))).2.2.2.2.2.2])
    · exact decide_eq_decide.mpr
        (by rw [(bit_imm_flag_chain_nat _ hp (decide (cpu.a_register &&& v = 0))).2.2.2.2.2.1])
    · exact decide_eq_decide.mpr
        (by rw [(bit_imm_flag_chain_nat _ hp (decide (cpu.a_register &&& v = 0))).2.2.1])
    · exact decide_eq_decide.mpr
        (by rw [(bit_imm_flag_chain_nat _ hp (decide (cpu.a_register &&& v = 0))).2.2.2.1])
    · exact decide_eq_decide.mpr
        (by rw [(bit_imm_flag_chain_nat _ hp (decide (cpu.a_register &&& v = 0))).2.2.2.2.1])
  · intro cpu bus addr hwf hwfb
    obtain ⟨hpc, ha, hy, hx, hsp, hp⟩ := hwf
    have hread : (Operand.Address addr).read cpu bus = Except.ok (bus.data addr) := rfl
    simp only [op_bit, hread, W65C02S.status_set, W65C02S.status_check, Status.mask]
    refine ⟨_, rfl, ?_, ?_, ?_⟩
    · rw [(bit_mem_flag_chain_nat _ hp _ _ _).1]
      simp
    · rw [(bit_mem_flag_chain_nat _ hp _ _ _).2.1]
      exact byte_shift7_testBit_nat _ (hwfb addr)
    · rw [(bit_mem_flag_chain_nat _ hp _ _ _).2.2]
      exact byte_and64_testBit_nat _ (hwfb addr)

/-- C8 witness: the hypotheses of `bit_immediate_frame` hold at a concrete
input and immediate BIT succeeds there. -/
theorem bit_immediate_frame_witness :
    (W65C02S.mk 0 0x0F 0 0 0 0xC5).Wf ∧ (0xF0 : Nat) < 256 ∧
    ∃ cpu1 : W65C02S,
      op_bit ⟨0, 0x0F, 0, 0, 0, 0xC5⟩ bus0 ⟨Operand.Value 0xF0, false⟩ =
        some (Except.ok (), cpu1, bus0) := by
  have hwf : (W65C02S.mk 0 0x0F 0 0 0 0xC5).Wf := by
    unfold W65C02S.Wf
    decide
  refine ⟨hwf, by norm_num, ?_⟩
  obtain ⟨cpu1, h, _⟩ :=
    bit_immediate_frame.1 ⟨0, 0x0F, 0, 0, 0, 0xC5⟩ bus0 0xF0 hwf (by norm_num)
  exact ⟨cpu1, h⟩

/-- C9: the claim says a ROM file shorter than 32 KiB makes the driver
exit with the malformed-file error, but `main` evaluates
`&rom[0x8000..]` before the `rom.len() < 32768` check, so every such file
makes the slice indexing panic instead and `MalformedRomFile` is
unreachable. -/
theorem short_rom_panics : ∀ rom : List Nat, rom.length < 32768 →
    rom_file_check rom = DriverCheck.panicked := by
  intro rom h
  simp only [rom_file_check, if_pos h]

/-- C9 witness: the hypothesis of `short_rom_panics` holds for the empty
ROM file, which therefore panics rather than reporting malformed. -/
theorem short_rom_panics_witness :
    ([] : List Nat).length < 32768 ∧ rom_file_check [] = DriverCheck.panicked :=
  ⟨by decide, short_rom_panics [] (by decide)⟩

/-- C10: if the opcode at `PC` has an empty slot in the 256-entry
operations table, `step` returns `InvalidOpcode` carrying exactly that
byte, `PC` has advanced by exactly one with 16-bit wrap, the registers
`A`, `X`, `Y`, `SP`, `P` are unchanged, and the bus (including its write
log) is unchanged — no write was performed. -/
theorem step_invalid_opcode (cpu : W65C02S) (bus : Bus)
    (h : OPERATIONS.getD (bus.data cpu.program_counter) Option.none = Option.none) :
    step cpu bus = some (Except.error (CpuError.InvalidOpcode (bus.data cpu.program_counter)),
      { cpu with program_counter := (cpu.program_counter + 1) % 65536 }, bus) := by
  simp only [step, fetch_u8, Bus.read]
  rw [h]

/-- C10 witness: opcode `0x02` is an invalid slot, and `step` on a bus
that returns `0x02` everywhere errors out with only `PC` advanced. -/
theorem step_invalid_opcode_witness :
    OPERATIONS.getD 2 Option.none = Option.none ∧
    step ⟨0, 0, 0, 0, 0, 0⟩ ⟨fun _ => 2, []⟩ =
      some (Except.error (CpuError.InvalidOpcode 2), ⟨1, 0, 0, 0, 0, 0⟩, ⟨fun _ => 2, []⟩) :=
  ⟨rfl, step_invalid_opcode ⟨0, 0, 0, 0, 0, 0⟩ ⟨fun _ => 2, []⟩ rfl⟩

end Steel6502
